import Mathlib

/-!
# Verification of the attachments-pdf-generator page-position logic

This file is a shallow embedding, in Lean 4, of the page-position
reconciliation logic of the `attachments-pdf-generator` repository:

* `src/excel/excel_reader.py` — spreadsheet reading and normalization,
* `src/pdf/toc_generator.py`  — the layout estimator (`calculate_page_map`),
* `src/pdf/pdf_merger.py`     — TOC/cover location, attachment splicing,
  link fixing and bookmark creation,
* `src/merge_pdfs.py`         — the merge entry point.

Python values read from spreadsheet cells are modelled by `PyVal`; Python
strings are Lean `String`s and every string operation used by the source
(`in`, `split`, `splitlines`, `rstrip`, `lower`, `startswith`, the two
regular expressions) is implemented below over `List Char`.  PDF documents
are modelled by `Doc`: a list of pages, each carrying its extracted text
(`page.get_text()`), its link list (`page.get_links()`), and an abstract
`search_for` function returning rectangle handles; plus the document
outline (`get_toc`/`set_toc`).  The file system (which files exist, what
their PDF contents are, and the spreadsheet contents) is an explicit
`FileSys` record, so the entry points become pure functions from a
`FileSys` to an `Except` result, mirroring Python exceptions.
-/

set_option maxRecDepth 8000

/-! ## Rational arithmetic helpers

All rational values in this development are built with `Rat.divInt` (which
normalizes), and arithmetic goes through the helpers below, so that every
definition evaluates by kernel reduction on concrete inputs. -/

/-- The rational `n / 1`. -/
def qInt (n : ℤ) : ℚ := Rat.divInt n 1

/-- The rational `n / 1` for a natural `n`. -/
def qNat (n : Nat) : ℚ := Rat.divInt (Int.ofNat n) 1

/-- Addition on `ℚ` via `Rat.divInt`. -/
def qAdd (a b : ℚ) : ℚ :=
  Rat.divInt (a.num * (b.den : ℤ) + b.num * (a.den : ℤ)) ((a.den : ℤ) * (b.den : ℤ))

/-- Multiplication on `ℚ` via `Rat.divInt`. -/
def qMul (a b : ℚ) : ℚ :=
  Rat.divInt (a.num * b.num) ((a.den : ℤ) * (b.den : ℤ))

/-- Division on `ℚ` via `Rat.divInt` (never applied to a zero divisor in
this development). -/
def qDiv (a b : ℚ) : ℚ :=
  Rat.divInt (a.num * (b.den : ℤ)) ((a.den : ℤ) * b.num)

/-- The rational `10 ^ k`. -/
def qPow10 (k : Nat) : ℚ := Rat.divInt (Int.ofNat (10 ^ k)) 1

/-- Negation on `ℚ` via `Rat.divInt`. -/
def qNeg (a : ℚ) : ℚ := Rat.divInt (-a.num) (a.den : ℤ)

/-- Absolute value on `ℚ`. -/
def qAbs (a : ℚ) : ℚ := if a.num < 0 then qNeg a else a

/-- A Python value as read from a spreadsheet cell (openpyxl) or held in an
attachment dict: `int`, `float`, `str`, `bool` or `None`.  Python floats are
modelled as exact rationals. -/
inductive PyVal where
  | vInt (n : ℤ)
  | vFloat (q : ℚ)
  | vStr (s : String)
  | vBool (b : Bool)
  | vNone
deriving DecidableEq, Repr

/-- Python truthiness (`bool(v)`) for the values we model. -/
def pyTruthy : PyVal → Bool
  | .vInt n => n ≠ 0
  | .vFloat q => q.num ≠ 0
  | .vStr s => s ≠ ""
  | .vBool b => b
  | .vNone => false

/-- Python `==` for the values we model: numbers (`int`, `float`, `bool`)
compare by numeric value across types, strings compare as strings. -/
def pyEq : PyVal → PyVal → Bool
  | .vInt a, .vInt b => a = b
  | .vInt a, .vFloat b => qInt a = b
  | .vInt a, .vBool b => a = (if b then 1 else 0)
  | .vFloat a, .vInt b => a = qInt b
  | .vFloat a, .vFloat b => a = b
  | .vFloat a, .vBool b => a = qInt (if b then 1 else 0)
  | .vBool a, .vInt b => (if a then (1 : ℤ) else 0) = b
  | .vBool a, .vFloat b => qInt (if a then 1 else 0) = b
  | .vBool a, .vBool b => a = b
  | .vStr a, .vStr b => a = b
  | .vNone, .vNone => true
  | _, _ => false

/-! ## String helpers (Python string operations over `List Char`) -/

/-- Does `pat` occur as a contiguous sublist of `s`?  Models Python's
substring test `pat in s`. -/
def subOccurs (pat s : List Char) : Bool :=
  s.tails.any (fun t => pat.isPrefixOf t)

/-- Python `pat in text` for strings. -/
def strContains (text pat : String) : Bool :=
  subOccurs pat.toList text.toList

/-- Python `s.startswith(pat)`. -/
def strStartsWith (s pat : String) : Bool :=
  pat.toList.isPrefixOf s.toList

/-- Auxiliary for `splitOnSub`: fuelled scan for the next occurrence of
`sep`, returning the piece before it and the remainder after it. -/
def splitOnSubAux (sep : List Char) : Nat → List Char → List (List Char) → List Char →
    List (List Char)
  | 0, _, acc, cur => (cur.reverse :: acc).reverse
  | _ + 1, [], acc, cur => (cur.reverse :: acc).reverse
  | fuel + 1, c :: rest, acc, cur =>
    if sep.isPrefixOf (c :: rest) then
      splitOnSubAux sep fuel ((c :: rest).drop sep.length) (cur.reverse :: acc) []
    else
      splitOnSubAux sep fuel rest acc (c :: cur)

/-- Python `text.split(sep)` for a non-empty separator `sep`. -/
def splitOnSub (text sep : List Char) : List (List Char) :=
  splitOnSubAux sep (text.length + 1) text [] []

/-- Python `text.split(sep)` on strings. -/
def strSplitOn (text sep : String) : List String :=
  (splitOnSub text.toList sep.toList).map List.asString

/-- Python `text.split('\n')`. -/
def strLines (text : String) : List String :=
  strSplitOn text "\n"

/-- Characters treated as whitespace by Python's `str.split()` /
`\s` in the regular expressions we model. -/
def pyIsWs (c : Char) : Bool :=
  c = ' ' || c = '\t' || c = '\n' || c = '\r' || c = '\x0b' || c = '\x0c'

/-- Auxiliary for `pySplitWs`: split on runs of whitespace. -/
def pySplitWsAux : List Char → List Char → List String → List String
  | [], cur, acc =>
    (if cur.isEmpty then acc else cur.reverse.asString :: acc).reverse
  | c :: rest, cur, acc =>
    if pyIsWs c then
      pySplitWsAux rest [] (if cur.isEmpty then acc else cur.reverse.asString :: acc)
    else
      pySplitWsAux rest (c :: cur) acc

/-- Python `s.split()` with no argument: split on whitespace runs,
dropping empty pieces. -/
def pySplitWs (s : String) : List String :=
  pySplitWsAux s.toList [] []

/-- Python `s.rstrip(":")`: drop trailing colons. -/
def rstripColon (s : String) : String :=
  ((s.toList.reverse.dropWhile (fun c => c = ':')).reverse).asString

/-- Python `s.lower()` (ASCII case folding suffices for the strings the
program compares). -/
def strLower (s : String) : String :=
  (s.toList.map Char.toLower).asString

/-- Python `s.strip()` (both-ends whitespace strip). -/
def strStrip (s : String) : String :=
  (((s.toList.dropWhile pyIsWs).reverse.dropWhile pyIsWs).reverse).asString

/-- Python `s.replace(".", "", 1)`: remove the first `'.'`, if any. -/
def stripFirstDot (s : String) : String :=
  match s.toList.splitOnP (fun c => c = '.') with
  | [] => s
  | [_] => s
  | a :: b :: rest => (a ++ b ++ rest.foldl (fun l r => l ++ '.' :: r) []).asString

/-- Python `s.isdigit()` restricted to ASCII digits: non-empty and all
digits. -/
def pyIsDigitStr (s : String) : Bool :=
  ¬ s.toList.isEmpty && s.toList.all Char.isDigit

/-! ## Decimal numerals -/

/-- Value of a digit character. -/
def digitVal (c : Char) : Nat := c.toNat - 48

/-- Numeric value of a list of ASCII digit characters (most significant
first). -/
def digitsToNat (ds : List Char) : Nat :=
  ds.foldl (fun acc c => 10 * acc + digitVal c) 0

/-- Auxiliary: decimal digits of `n`, most significant first (fuelled). -/
def natDigitsAux : Nat → Nat → List Char
  | 0, _ => []
  | fuel + 1, n =>
    if n < 10 then [Char.ofNat (48 + n)]
    else natDigitsAux fuel (n / 10) ++ [Char.ofNat (48 + n % 10)]

/-- Decimal representation of a natural number (Python `str(n)` for
`n ≥ 0`). -/
def natStr (n : Nat) : String :=
  (natDigitsAux (n + 1) n).asString

/-- Decimal representation of an integer (Python `str(n)`). -/
def intStr (n : ℤ) : String :=
  if n < 0 then "-" ++ natStr n.natAbs else natStr n.natAbs

/-- Truncation of a rational toward zero: Python `int(f)` on a float. -/
def pyTrunc (q : ℚ) : ℤ :=
  if 0 ≤ q.num then q.floor else q.ceil

/-- Decimal representation of a non-negative rational whose denominator
divides a power of ten, used to model Python `str(f)` for a float `f`.
(Actual Python floats are dyadic rationals, so such a power always exists;
the search is bounded by the denominator and the fallback is unreachable
for them.) -/
def ratDecimalStr (q : ℚ) : String :=
  let a := qAbs q
  let sign := if q.num < 0 then "-" else ""
  match (List.range (a.den + 1)).find? (fun k => (qMul a (qPow10 k)).den = 1) with
  | some 0 => sign ++ natStr a.num.natAbs ++ ".0"
  | some k =>
    let scaled := (qMul a (qPow10 k)).num.natAbs
    let digits := natStr scaled
    let digits := (List.replicate (k + 1 - digits.length) '0').asString ++ digits
    let cut := digits.length - k
    sign ++ (digits.toList.take cut).asString ++ "." ++ (digits.toList.drop cut).asString
  | none => sign ++ natStr a.num.natAbs

/-- Python `str(v)` for the values we model. -/
def pyStr : PyVal → String
  | .vInt n => intStr n
  | .vFloat q => ratDecimalStr q
  | .vStr s => s
  | .vBool b => if b then "True" else "False"
  | .vNone => "None"

/-! ## Python `float()` parsing

`pyFloatLit` models `float(s)` on a string: optional surrounding
whitespace, optional sign, then either the special values
`inf`/`infinity`/`nan` (case-insensitive) or a decimal literal (digits
with an optional fractional part, an optional decimal exponent, and
underscore separators between digits).  A decimal literal whose magnitude
reaches the IEEE-double rounding boundary `2^1024 - 2^970` yields an
infinity, exactly as `float()` does on overflow literals such as
`'1e999'`; `none` models a raised `ValueError`.  Finite results keep
their exact decimal value (double rounding and underflow-to-zero of
finite values are not applied; no claim distinguishes values closer than
one double ulp). -/

/-- The result of Python `float()`: a finite value, a signed infinity, or
a NaN. -/
inductive PyFloat where
  | finite (q : ℚ)
  | inf (neg : Bool)
  | nan
deriving DecidableEq, Repr

/-- Parse an optional exponent suffix (`e`/`E`, optional sign, digits)
followed by end of input.  Returns the exponent. -/
def parseExponent : List Char → Option ℤ
  | [] => some 0
  | c :: rest =>
    if c = 'e' ∨ c = 'E' then
      match rest with
      | '+' :: ds => if ¬ ds.isEmpty ∧ ds.all Char.isDigit then some (digitsToNat ds) else none
      | '-' :: ds => if ¬ ds.isEmpty ∧ ds.all Char.isDigit then some (-(digitsToNat ds : ℤ)) else none
      | ds => if ¬ ds.isEmpty ∧ ds.all Char.isDigit then some (digitsToNat ds) else none
    else none

/-- Scale a rational by a signed power of ten. -/
def scalePow10 (q : ℚ) (e : ℤ) : ℚ :=
  if 0 ≤ e then qMul q (qPow10 e.natAbs) else qDiv q (qPow10 e.natAbs)

/-- Parse the unsigned mantissa-and-exponent part of a float literal. -/
def parseMantissa (cs : List Char) : Option ℚ :=
  let intPart := cs.takeWhile Char.isDigit
  let rest := cs.dropWhile Char.isDigit
  match rest with
  | '.' :: rest2 =>
    let fracPart := rest2.takeWhile Char.isDigit
    let rest3 := rest2.dropWhile Char.isDigit
    if intPart.isEmpty ∧ fracPart.isEmpty then none
    else
      (parseExponent rest3).map (fun e =>
        scalePow10 (qAdd (qNat (digitsToNat intPart))
          (qDiv (qNat (digitsToNat fracPart)) (qPow10 fracPart.length))) e)
  | _ =>
    if intPart.isEmpty then none
    else (parseExponent rest).map (fun e => scalePow10 (qNat (digitsToNat intPart)) e)

/-- Are all underscores in the literal placed between two digits?  This
is Python's rule for numeric-literal underscore separators (`'1_000'` is
accepted, `'_1'`, `'1_'`, `'1__0'`, `'1_.5'`, `'1e_5'` raise). -/
def underscoresValid : Option Char → List Char → Bool
  | _, [] => true
  | prev, c :: rest =>
    if c = '_' then
      (match prev with | some p => p.isDigit | none => false) &&
      (match rest with | d :: _ => d.isDigit | [] => false) &&
      underscoresValid (some c) rest
    else underscoresValid (some c) rest

/-- The IEEE-double round-to-nearest overflow boundary: a decimal literal
whose exact magnitude is at least `2^1024 - 2^970` converts to infinity
(`float('1.7976931348623157e308')` is finite,
`float('1.7976931348623159e308')` and `float('1e999')` are `inf`). -/
def DBL_OVERFLOW_BOUND : ℚ := qNat (2 ^ 1024 - 2 ^ 970)

/-- Python `float(s)` on a string; `none` models a raised `ValueError`. -/
def pyFloatLit (s : String) : Option PyFloat :=
  let cs := (strStrip s).toList
  let neg := match cs with
    | '-' :: _ => true
    | _ => false
  let body := match cs with
    | '+' :: rest => rest
    | '-' :: rest => rest
    | _ => cs
  let lower := (body.map Char.toLower).asString
  if lower = "inf" ∨ lower = "infinity" then some (.inf neg)
  else if lower = "nan" then some .nan
  else if ¬ underscoresValid none body then none
  else
    match parseMantissa (body.filter (fun c => c ≠ '_')) with
    | none => none
    | some q =>
      if DBL_OVERFLOW_BOUND ≤ q then some (.inf neg)
      else some (.finite (if neg then qNeg q else q))

/-- The finite value of Python `float(s)`: `none` when `float()` raises
`ValueError` or yields a non-finite value (callers that must distinguish
the infinite and NaN outcomes use `pyFloatLit` directly). -/
def pyFloatParse (s : String) : Option ℚ :=
  match pyFloatLit s with
  | some (.finite q) => some q
  | _ => none

/-! ## Python dicts as insertion-ordered association lists -/

/-- Assignment `d[k] = v` on a Python dict (an insertion-ordered association list):
update the existing key in place, else append. -/
def dictSet {K V : Type} [DecidableEq K] (d : List (K × V)) (k : K) (v : V) :
    List (K × V) :=
  if d.any (fun p => p.1 = k) then
    d.map (fun p => if p.1 = k then (k, v) else p)
  else d ++ [(k, v)]

/-- Lookup `d.get(k)` on a Python dict (keys are unique, so first match). -/
def dictGet {K V : Type} [DecidableEq K] (d : List (K × V)) (k : K) : Option V :=
  (d.find? (fun p => p.1 = k)).map Prod.snd

/-- A list paired with indices starting at `n` (our replacement for
Python's `for i in range(len(xs))` loops). -/
def withIdx {α : Type} : List α → Nat → List (Nat × α)
  | [], _ => []
  | a :: l, n => (n, a) :: withIdx l (n + 1)

/-- View of `Except` as a sum, for decidable equality. -/
def exceptToSum {ε α : Type} : Except ε α → ε ⊕ α
  | .error e => .inl e
  | .ok a => .inr a

/-- Decidable equality for `Except`, used to evaluate the entry points on
concrete inputs. -/
instance {ε α : Type} [DecidableEq ε] [DecidableEq α] : DecidableEq (Except ε α) :=
  fun a b => decidable_of_iff (exceptToSum a = exceptToSum b)
    (by cases a <;> cases b <;> simp [exceptToSum])

/-! ## `src/excel/excel_reader.py` -/

/-- The spreadsheet's first sheet: header row cells (openpyxl returns
strings or `None` in the header row) and the data rows. -/
structure Sheet where
  headers : List (Option String)
  rows : List (List PyVal)
deriving Repr

/-- The attachment dict built by `read_attachment_data`: one optional entry
per standardized field name (a key is present iff its column was found). -/
structure AttachmentDict where
  number : Option PyVal := none
  title : Option PyVal := none
  pageCount : Option PyVal := none
  remarks : Option PyVal := none
  body : Option PyVal := none
  filename : Option PyVal := none
  date : Option PyVal := none
  language : Option PyVal := none
deriving DecidableEq, Repr

/-- Assignment `attachment[field] = v` for the standardized field names (unknown
fields are ignored; `Exclude` is never stored, as in the source). -/
def setField (att : AttachmentDict) (field : String) (v : PyVal) : AttachmentDict :=
  if field = "Attachment Number" then { att with number := some v }
  else if field = "Title" then { att with title := some v }
  else if field = "Page count" then { att with pageCount := some v }
  else if field = "Additional Remarks about File" then { att with remarks := some v }
  else if field = "Body" then { att with body := some v }
  else if field = "Filename Reference" then { att with filename := some v }
  else if field = "Date" then { att with date := some v }
  else if field = "Language" then { att with language := some v }
  else att

/-- The `field_mapping` dict of `read_attachment_data`: standardized field names
to accepted sheet headers. -/
def field_mapping : List (String × List String) :=
  [("Attachment Number", ["Attachment Number", "Attachment #", "Number"]),
   ("Title", ["Title", "Document Title"]),
   ("Page count", ["Page count", "Pages", "Page Count"]),
   ("Additional Remarks about File", ["Additional Remarks about File", "Remarks", "Notes"]),
   ("Body", ["Body", "Description", "Body (Description)"]),
   ("Filename Reference", ["Filename Reference", "Filename", "File"]),
   ("Date", ["Date", "Date (time Pacific)", "Document Date"]),
   ("Language", ["Language", "Lang", "Language Code"]),
   ("Exclude", ["Exclude", "Skip"])]

/-- First header cell index matching one of the candidate headers
(case-insensitively, skipping empty/`None` cells), as in the
`header_indices` loop of `read_attachment_data`. -/
def findFieldIdx (headers : List (Option String)) (cands : List String) : Option Nat :=
  ((withIdx headers 0).find? (fun p =>
    match p.2 with
    | some h => h ≠ "" && cands.any (fun c => strLower c = strLower h)
    | none => false)).map Prod.fst

/-- Header index found for a standardized field name. -/
def headerIndexFor (headers : List (Option String)) (field : String) : Option Nat :=
  (dictGet field_mapping field).bind (findFieldIdx headers)

/-- The `header_indices` dict of `read_attachment_data` (fields in
`field_mapping` order whose column was found). -/
def headerIndices (headers : List (Option String)) : List (String × Nat) :=
  field_mapping.filterMap (fun p => (findFieldIdx headers p.2).map (fun i => (p.1, i)))

/-- The values recognized by the `Exclude` row filter:
`(True, 'TRUE', 'True', 'true', 'YES', 'Yes', 'yes', '1', 1)`, compared
with Python `==`. -/
def excludeMarker (v : PyVal) : Bool :=
  [PyVal.vBool true, .vStr "TRUE", .vStr "True", .vStr "true", .vStr "YES",
   .vStr "Yes", .vStr "yes", .vStr "1", .vInt 1].any (fun m => pyEq v m)

/-- The `Language` default applied at the end of the row loop: set to
`'EN'` when the field is absent or falsy. -/
def applyLanguageDefault (att : AttachmentDict) : AttachmentDict :=
  match att.language with
  | some v => if pyTruthy v then att else { att with language := some (.vStr "EN") }
  | none => { att with language := some (.vStr "EN") }

/-- One attachment dict from a sheet row (`row[idx] if idx < len(row) else
None`; openpyxl rows are full-width so the in-range read never raises). -/
def rowToAttachment (hIdx : List (String × Nat)) (row : List PyVal) : AttachmentDict :=
  applyLanguageDefault
    ((hIdx.filter (fun p => p.1 ≠ "Exclude")).foldl
      (fun att p => setField att p.1 ((row.get? p.2).getD .vNone)) {})

/-- Function `read_attachment_data(for_toc)` (`src/excel/excel_reader.py`).  File
and sheet presence come from the file-system model; a raised
`FileNotFoundError`/`ValueError` is an `Except.error`.  The source's
required-field test `field not in header_indices` is expressed through
`headerIndexFor`, which is equivalent because the required fields are keys
of `field_mapping`. -/
def read_attachment_data (excelExists : Bool) (hasSheet : Bool) (sheet : Sheet)
    (for_toc : Bool) : Except String (List AttachmentDict) :=
  if ¬ excelExists then .error "Excel file not found: input-files/input-pdfs.xlsx"
  else if ¬ hasSheet then .error "Sheet 'Attachments Prep' not found in input-files/input-pdfs.xlsx"
  else
    let headers := sheet.headers
    let hIdx := headerIndices headers
    if (headerIndexFor headers "Attachment Number").isNone then
      .error "Required field 'Attachment Number' not found in Excel headers"
    else if for_toc ∧ (headerIndexFor headers "Title").isNone then
      .error "Required field 'Title' not found in Excel headers"
    else if ¬ for_toc ∧ (headerIndexFor headers "Filename Reference").isNone then
      .error "Required field 'Filename Reference' not found in Excel headers"
    else
      .ok (sheet.rows.filterMap (fun row =>
        if ¬ row.any pyTruthy then none
        else if (match dictGet hIdx "Exclude" with
                 | some idx => excludeMarker ((row.get? idx).getD .vNone)
                 | none => false) then none
        else some (rowToAttachment hIdx row)))

/-- Function `normalize_attachment_number` (`src/excel/excel_reader.py`): an
integral float prints as an integer, everything else as `str(x)`. -/
def normalize_attachment_number (v : PyVal) : String :=
  match v with
  | .vFloat q => if q.den = 1 then intStr q.num else pyStr (.vFloat q)
  | _ => pyStr v

/-- Test whether an `Except` computation succeeded. -/
def exceptOk {ε α : Type} : Except ε α → Bool
  | .ok _ => true
  | .error _ => false

/-- Function `normalize_page_count` (`src/excel/excel_reader.py` lines
111-128), with its exception behaviour.  An integral float becomes its
integer; a non-`int` value is parsed with `int(float(x))` (truncation
toward zero); the `except (ValueError, TypeError)` clause turns a parse
failure — `float()` raising `ValueError`, or `int()` raising `ValueError`
on a NaN — into the default `1`, but `int()` on an infinite float (for
example `float('inf')` or the overflow literal `float('1e999')`) raises
`OverflowError`, which the clause does NOT catch, so the function raises;
Python `bool` is an `int` subclass and is returned unchanged (`True` = 1,
`False` = 0); an `int` is returned unchanged. -/
def normalize_page_count_exc : PyVal → Except String ℤ
  | .vFloat q => .ok (if q.den = 1 then q.num else pyTrunc q)
  | .vInt n => .ok n
  | .vBool b => .ok (if b then 1 else 0)
  | .vStr s => match pyFloatLit s with
               | some (.finite q) => .ok (pyTrunc q)
               | some (.inf _) =>
                 .error "OverflowError: cannot convert float infinity to integer"
               | some .nan => .ok 1
               | none => .ok 1
  | .vNone => .ok 1

/-- Total restriction of `normalize_page_count_exc`: it agrees with the
source function on every input where the source returns a value
(`normalize_page_count_exc_agrees`); on an infinite-float string — where
the source raises the uncaught `OverflowError` — this wrapper returns `1`
instead, so proofs about the raising inputs must use
`normalize_page_count_exc`. -/
def normalize_page_count : PyVal → ℤ
  | .vFloat q => if q.den = 1 then q.num else pyTrunc q
  | .vInt n => n
  | .vBool b => if b then 1 else 0
  | .vStr s => match pyFloatParse s with
               | some q => pyTrunc q
               | none => 1
  | .vNone => 1

/-! ## `src/pdf/toc_generator.py` — the Layout Estimator -/

/-- Constant `TOC_ENTRIES_PER_PAGE = 25` (`src/config/constants.py`). -/
def TOC_ENTRIES_PER_PAGE : Nat := 25

/-- The TOC page-count estimate
`max(1, min(3, (toc_entries + 24) // 25))`, as written at
`toc_generator.py` lines 302-304 and again at lines 700-702 (the source
inlines this same expression at both sites). -/
def tocPagesEstimate (toc_entries : Nat) : Nat :=
  max 1 (min 3 ((toc_entries + 24) / 25))

/-- The sort key `float(normalize_attachment_number(x.get('Attachment
Number', 0)))` used by `calculate_page_map`: a point of the extended
line `⊥ = -inf ≤ ℚ ≤ ⊤ = +inf`, ordered as Python orders these floats.
`none` models the `ValueError` raised by `float()` on a non-numeric
string, and also a NaN key (model boundary: Python's sort does not raise
on a NaN key but yields an unspecified order, which no claim relies
on). -/
def estSortKey (a : AttachmentDict) : Option (WithBot (WithTop ℚ)) :=
  match pyFloatLit (normalize_attachment_number (a.number.getD (.vInt 0))) with
  | some (.finite q) => some ((q : WithTop ℚ) : WithBot (WithTop ℚ))
  | some (.inf false) => some ((⊤ : WithTop ℚ) : WithBot (WithTop ℚ))
  | some (.inf true) => some ⊥
  | some .nan => none
  | none => none

/-- Compute `f` on every element, failing if any computation fails (the
sort-key pass of `sorted(attachments, key=float(...))`, which raises on
the first non-numeric key). -/
def optionMapList {α β : Type} (f : α → Option β) : List α → Option (List β)
  | [] => some []
  | a :: l =>
    match f a, optionMapList f l with
    | some b, some bs => some (b :: bs)
    | _, _ => none

/-- Loop body of `calculate_page_map` (`toc_generator.py` lines 317-328):
record the current page for the attachment, then advance the cursor by
its normalized page count plus one cover page.  An `OverflowError`
raised by `normalize_page_count` propagates, aborting the whole map
computation (`none`). -/
def estStep (st : Option (List (String × ℤ) × ℤ)) (a : AttachmentDict) :
    Option (List (String × ℤ) × ℤ) :=
  match st with
  | none => none
  | some (m, cur) =>
    let num := normalize_attachment_number (a.number.getD (.vStr ""))
    match normalize_page_count_exc (a.pageCount.getD (.vInt 1)) with
    | .ok page_count => some (dictSet m num cur, cur + (page_count + 1))
    | .error _ => none

/-- Function `calculate_page_map` (`src/pdf/toc_generator.py` lines 279-330).  The
`os.path.exists`/page-count reads for the title page and foreword are the
`titlePageCount`, `forewordExists`, `forewordPageCount` parameters (the
counts are `0` when the files are absent, as in the source).  The result
is `none` when the function raises: when the sort over `float(...)` keys
raises `ValueError`, or when `normalize_page_count` raises the uncaught
`OverflowError` on an infinite-float page-count string. -/
def calculate_page_map (titlePageCount : Nat) (forewordExists : Bool)
    (forewordPageCount : Nat) (attachments : List AttachmentDict) :
    Option (List (String × ℤ)) :=
  let toc_entries := attachments.length + (if forewordExists then 1 else 0)
  let toc_pages := tocPagesEstimate toc_entries
  let start_page : ℤ := ((1 + titlePageCount + forewordPageCount + toc_pages + 1 : Nat) : ℤ)
  match optionMapList (fun a => (estSortKey a).map (fun q => (q, a))) attachments with
  | none => none
  | some keyed =>
    let sortedAtts := (List.insertionSort (fun x y => x.1 ≤ y.1) keyed).map Prod.snd
    (sortedAtts.foldl estStep (some ([], start_page))).map Prod.fst

/-! ## The document model

A `Page` carries the data the merger reads from a PDF page: its extracted
text (`page.get_text()`), its links (`page.get_links()`), and an abstract
`page.search_for` returning rectangle handles for a search string.  A
`Doc` is a page list plus the outline (`get_toc`/`set_toc`). -/

/-- A navigation link: either a URI link with a symbolic target (as left
by the HTML renderer) or an internal goto link to a 0-based page index.
The `Nat` is an abstract rectangle handle (the clickable region). -/
inductive PLink where
  | uri (target : String) (rect : Nat)
  | goto (page : Nat) (rect : Nat)
deriving DecidableEq, Repr

/-- The rectangle of a link (`link['from']`). -/
def linkRect : PLink → Nat
  | .uri _ r => r
  | .goto _ r => r

/-- A PDF page as the merger observes it. -/
structure Page where
  text : String
  links : List PLink
  searchRects : String → List Nat

/-- A PDF document: pages plus outline entries `[level, title, page]`. -/
structure Doc where
  pages : List Page
  outline : List (Nat × String × Nat) := []

/-- The file-system environment of one run: the spreadsheet, which paths
exist, and the PDF contents behind each path (`none` models a
`fitz.open` failure). -/
structure FileSys where
  excelExists : Bool
  hasSheet : Bool
  sheet : Sheet
  fileExists : String → Bool
  openPdf : String → Option Doc

/-- Path constant `OUTPUT_PDF` from `src/config/paths.py` (the rendered TOC/cover PDF). -/
def OUTPUT_PDF : String := "output-files/weasyoutput.pdf"

/-- Path constant `MERGED_PDF` from `src/config/paths.py` (the final merged document). -/
def MERGED_PDF : String := "output-files/merged-attachments.pdf"

/-! ## `src/pdf/pdf_merger.py` -/

/-- Function `build_attachment_map`: attachment number (normalized) → attachment
dict. -/
def build_attachment_map (attachments : List AttachmentDict) : List (String × AttachmentDict) :=
  attachments.foldl
    (fun m a => dictSet m (normalize_attachment_number (a.number.getD (.vStr ""))) a) []

/-- The literal TOC heading the scans look for. -/
def tocHeading : String := "Table of Contents"

/-- Test `"Table of Contents" in page.get_text()`. -/
def pageHasTocHeading (pg : Page) : Bool := strContains pg.text tocHeading

/-- Regex tail `\s*$` in multiline mode: some run of whitespace ends at the end of
the string or just before a `'\n'`. -/
def endsAtLineEnd : List Char → Bool
  | [] => true
  | c :: rest => if c = '\n' then true else if pyIsWs c then endsAtLineEnd rest else false

/-- Match `\s+\d+\s+\d+\s*$` (multiline) at the start of `cs` (the text
right after an occurrence of `Attachment`).  The quantifiers are matched
greedily; as each boundary switches between whitespace and digits this is
equivalent to the regex's backtracking search. -/
def matchEntryTail (cs : List Char) : Bool :=
  let t1 := cs.dropWhile pyIsWs
  if cs.length = t1.length then false else
  let d1 := t1.takeWhile Char.isDigit
  if d1.isEmpty then false else
  let t2 := t1.dropWhile Char.isDigit
  let t3 := t2.dropWhile pyIsWs
  if t2.length = t3.length then false else
  let d2 := t3.takeWhile Char.isDigit
  if d2.isEmpty then false else
  endsAtLineEnd (t3.dropWhile Char.isDigit)

/-- Search `re.search(r'Attachment\s+\d+\s+\d+\s*$', text, re.MULTILINE)`:
scan for an occurrence of `Attachment` whose tail matches. -/
def reSearchAttachmentEntry : List Char → Bool
  | [] => false
  | c :: rest =>
    if "Attachment".toList.isPrefixOf (c :: rest) ∧ matchEntryTail ((c :: rest).drop 10) then
      true
    else reSearchAttachmentEntry rest

/-- Parse `\s+(\d+\.?\d*)` right after an occurrence of `Attachment`,
returning the captured group and the remaining input (greedy, matching
the regex). -/
def parseNumCapture (cs : List Char) : Option (String × List Char) :=
  let t1 := cs.dropWhile pyIsWs
  if cs.length = t1.length then none else
  let d1 := t1.takeWhile Char.isDigit
  if d1.isEmpty then none else
  match t1.dropWhile Char.isDigit with
  | '.' :: t3 =>
    some ((d1 ++ '.' :: t3.takeWhile Char.isDigit).asString, t3.dropWhile Char.isDigit)
  | t2 => some (d1.asString, t2)

/-- Scan `re.findall(r"Attachment\s+(\d+\.?\d*)", line)`: all captures, left
to right, non-overlapping (fuelled scan; the fuel is the input length). -/
def findAttachmentIdsAux : Nat → List Char → List String
  | 0, _ => []
  | _ + 1, [] => []
  | fuel + 1, c :: rest =>
    if "Attachment".toList.isPrefixOf (c :: rest) then
      match parseNumCapture ((c :: rest).drop 10) with
      | some (cap, remaining) => cap :: findAttachmentIdsAux fuel remaining
      | none => findAttachmentIdsAux fuel rest
    else findAttachmentIdsAux fuel rest

/-- Captures of `Attachment\s+(\d+\.?\d*)` in one line. -/
def findAttachmentIds (line : String) : List String :=
  findAttachmentIdsAux (line.toList.length + 1) line.toList

/-- Scan `re.findall(r"Attachment\s+(\d+\.?\d*)\s*[:-]", line)`: like
`findAttachmentIds` but a capture only matches when followed by optional
whitespace and `':'` or `'-'` (same captured group, as forced by the
digit/whitespace boundaries). -/
def findAttachmentIdsColonAux : Nat → List Char → List String
  | 0, _ => []
  | _ + 1, [] => []
  | fuel + 1, c :: rest =>
    if "Attachment".toList.isPrefixOf (c :: rest) then
      match parseNumCapture ((c :: rest).drop 10) with
      | some (cap, remaining) =>
        match remaining.dropWhile pyIsWs with
        | ':' :: after => cap :: findAttachmentIdsColonAux fuel after
        | '-' :: after => cap :: findAttachmentIdsColonAux fuel after
        | _ => findAttachmentIdsColonAux fuel rest
      | none => findAttachmentIdsColonAux fuel rest
    else findAttachmentIdsColonAux fuel rest

/-- Captures of `Attachment\s+(\d+\.?\d*)\s*[:-]` in one line. -/
def findAttachmentIdsColon (line : String) : List String :=
  findAttachmentIdsColonAux (line.toList.length + 1) line.toList

/-- Append-if-absent, used to model accumulation into a Python `set`. -/
def addUnique (l : List String) (s : String) : List String :=
  if l.contains s then l else l ++ [s]

/-- The `potential_attachments` set collected from a TOC page's text
(`fix_links`, lines 368-386): per line, the captures of both regular
expressions.  Python iterates this `set` in an unspecified order; we keep
first-occurrence order, and every statement proved below is independent
of that order. -/
def potentialAttachments (text : String) : List String :=
  (strLines text).foldl
    (fun acc line => (findAttachmentIds line ++ findAttachmentIdsColon line).foldl addUnique acc)
    []

/-- The id `link['uri'][7:]` for links whose URI starts with `#cover-`. -/
def uriCoverId : PLink → Option String
  | .uri t _ => if strStartsWith t "#cover-" then some ((t.toList.drop 7).asString) else none
  | .goto _ _ => none

/-- Collect `#cover-` URI links of a page into the `toc_links` dict. -/
def collectCoverLinks (links : List PLink) (acc : List (String × PLink)) : List (String × PLink) :=
  links.foldl (fun m l =>
    match uriCoverId l with
    | some id => dictSet m id l
    | none => m) acc

/-- The page loop of `locate_toc_page` (lines 41-72): heading pages are
TOC pages; page index 2 is a continuation page when its text has
attachment-entry-shaped lines. -/
def locTocAux : List (Nat × Page) → List Nat × List (String × PLink) →
    List Nat × List (String × PLink)
  | [], st => st
  | (i, pg) :: rest, (idxs, links) =>
    if pageHasTocHeading pg then
      locTocAux rest (idxs ++ [i], collectCoverLinks pg.links links)
    else if i = 2 ∧ ¬ idxs.contains i ∧ strContains pg.text "Attachment " ∧
        reSearchAttachmentEntry pg.text.toList then
      locTocAux rest (idxs ++ [i], collectCoverLinks pg.links links)
    else
      locTocAux rest (idxs, links)

/-- Function `locate_toc_page` (`src/pdf/pdf_merger.py` lines 27-89): returns
`(first_toc_page, toc_links, toc_page_indices)`; more than two detected
pages are truncated to the first two. -/
def locate_toc_page (pages : List Page) : Int × List (String × PLink) × List Nat :=
  let (idxs, links) := locTocAux (withIdx pages 0) ([], [])
  let idxs := if idxs.length > 2 then idxs.take 2 else idxs
  ((match idxs.head? with | some i => (i : Int) | none => -1), links, idxs)

/-- The cover-page condition of `locate_cover_pages` for one attachment
number: `f"Attachment {id}" in text`, and `"Page" in text` and the exact
line `f"Attachment {id}"` among the first five lines (`text.split('\n')[:5]`
is a list, so Python's `in` is exact-line membership). -/
def coverCondition (id : String) (text : String) : Bool :=
  strContains text ("Attachment " ++ id) &&
  (strContains text "Page" && ((strLines text).take 5).contains ("Attachment " ++ id))

/-- The first attachment number in `attachment_map` order matching the
cover-page condition on a page (the loop breaks after recording one). -/
def coverSelect (amap : List (String × AttachmentDict)) (pg : Page) : Option String :=
  (amap.map Prod.fst).find? (fun id => coverCondition id pg.text)

/-- The page loop of `locate_cover_pages` (a later match assigns over an
earlier one, since the source stores unconditionally). -/
def locCovAux (amap : List (String × AttachmentDict)) :
    List (Nat × Page) → List (String × Nat) → List (String × Nat)
  | [], acc => acc
  | (i, pg) :: rest, acc =>
    if pageHasTocHeading pg then locCovAux amap rest acc
    else
      match coverSelect amap pg with
      | some id => locCovAux amap rest (dictSet acc id i)
      | none => locCovAux amap rest acc

/-- Function `locate_cover_pages` (`src/pdf/pdf_merger.py` lines 91-119). -/
def locate_cover_pages (pages : List Page) (amap : List (String × AttachmentDict)) :
    List (String × Nat) :=
  locCovAux amap (withIdx pages 0) []

/-- The offset update of `insert_attachments` (lines 189-197): every
recorded position `>= insert_pos` is incremented by the inserted page
count.  The source loops over the dict keys and mutates in place; this
pointwise map is that same update. -/
def applyInsertShift {K : Type} (m : List (K × Nat)) (insert_pos k : Nat) : List (K × Nat) :=
  m.map (fun p => if insert_pos ≤ p.2 then (p.1, p.2 + k) else p)

/-- The sort key `float(x) if x.replace('.', '', 1).isdigit() else
float('inf')` used at lines 149 and 272 (`float('inf')` is `⊤`).  Under
the `isdigit` guard the string is digits with at most one dot, so
`float()` cannot raise and cannot yield NaN or `-inf`; it can still
overflow to `+inf` on a long digit string, which also sorts as `⊤`. -/
def coverSortKey (s : String) : WithTop ℚ :=
  if pyIsDigitStr (stripFirstDot s) then
    match pyFloatLit s with
    | some (.finite q) => (q : WithTop ℚ)
    | _ => ⊤
  else ⊤

/-- Path `os.path.join('input-files', language.lower(), filename)`. -/
def attachmentPath (language filename : String) : String :=
  "input-files/" ++ strLower language ++ "/" ++ filename

/-- The string behind a `PyVal`, when it is one. -/
def pyValAsStr : PyVal → Option String
  | .vStr s => some s
  | _ => none

/-- The state threaded through the `insert_attachments` loop. -/
structure InsertState where
  merged : List Page
  page_mapping : List (Nat × Nat)
  bookmark_positions : List (String × Nat)
  warnings : List String

/-- One iteration of the `insert_attachments` loop (lines 149-205):
record the cover position, then splice the attachment PDF right after the
cover page and shift both position maps.  Missing data, a falsy filename,
a missing file, and a failing `fitz.open` are non-fatal (warning +
continue); a `page_mapping` key miss or a non-string path component would
be an uncaught exception (`Except.error`). -/
def insertOne (fs : FileSys) (amap : List (String × AttachmentDict))
    (st : InsertState) (item : String × Nat) : Except String InsertState :=
  let attachment_num := item.1
  let page_idx := item.2
  match dictGet amap attachment_num with
  | none => .ok { st with warnings := st.warnings ++
      ["Warning: No data found for Attachment " ++ attachment_num ++ ", skipping"] }
  | some attachment =>
    let filenameV := attachment.filename.getD (.vStr "")
    let languageV := attachment.language.getD (.vStr "EN")
    if ¬ pyTruthy filenameV then
      .ok { st with warnings := st.warnings ++
        ["Warning: No filename for Attachment " ++ attachment_num ++ ", skipping"] }
    else
      match dictGet st.page_mapping page_idx with
      | none => .error "KeyError: page_mapping"
      | some cover_page_pos =>
        let st := { st with
          bookmark_positions := dictSet st.bookmark_positions attachment_num cover_page_pos }
        match pyValAsStr filenameV, pyValAsStr languageV with
        | some filename, some language =>
          let path := attachmentPath language filename
          if ¬ fs.fileExists path then
            .ok { st with warnings := st.warnings ++
              ["Warning: Attachment file not found: " ++ path ++ ", skipping"] }
          else
            let insert_pos := cover_page_pos + 1
            match fs.openPdf path with
            | none => .ok { st with warnings := st.warnings ++
                ["Error adding attachment " ++ attachment_num] }
            | some attachment_pdf =>
              let k := attachment_pdf.pages.length
              .ok { merged := st.merged.take insert_pos ++ attachment_pdf.pages ++
                      st.merged.drop insert_pos,
                    page_mapping := applyInsertShift st.page_mapping insert_pos k,
                    bookmark_positions := applyInsertShift st.bookmark_positions insert_pos k,
                    warnings := st.warnings }
        | _, _ => .error "TypeError: os.path.join on a non-string"

/-- Function `insert_attachments` (`src/pdf/pdf_merger.py` lines 121-207): copy all
TOC-PDF pages, then insert each attachment after its cover page, in
ascending numeric order of the located cover entries. -/
def insert_attachments (fs : FileSys) (amap : List (String × AttachmentDict))
    (cover_page_indices : List (String × Nat)) : Except String InsertState :=
  match fs.openPdf OUTPUT_PDF with
  | none => .error ("fitz.open failed: " ++ OUTPUT_PDF)
  | some toc_pdf =>
    let n := toc_pdf.pages.length
    let st0 : InsertState := {
      merged := toc_pdf.pages,
      page_mapping := (List.range n).map (fun i => (i, i)),
      bookmark_positions := [],
      warnings := [] }
    let sorted := List.insertionSort
      (fun a b : String × Nat => coverSortKey a.1 ≤ coverSortKey b.1) cover_page_indices
    sorted.foldlM (insertOne fs amap) st0

/-- The TOC-page detection inside `fix_links` (lines 339-356): the first
page among the first five whose text has the TOC heading, plus the next
page as a continuation when it mentions `"Attachment "` but not
`"Page "`. -/
def fixLinksTocPages (pages : List Page) : List Nat :=
  match (withIdx (pages.take 5) 0).find? (fun p => pageHasTocHeading p.2) with
  | none => []
  | some (i, _) =>
    match pages.get? (i + 1) with
    | some nextPg =>
      if strContains nextPg.text "Attachment " ∧ ¬ strContains nextPg.text "Page " then
        [i, i + 1]
      else [i]
    | none => [i]

/-- Does this link have a `#cover-` URI whose attachment id has a known
bookmark position? -/
def uriCoverKnown (bp : List (String × Nat)) (l : PLink) : Bool :=
  match uriCoverId l with
  | some id => (dictGet bp id).isSome
  | none => false

/-- The links synthesized onto a TOC page by `fix_links` (lines 393-417):
one fresh goto link per potential attachment id with a known position and
a locatable text region. -/
def synthLinks (bp : List (String × Nat)) (pg : Page) : List PLink :=
  (potentialAttachments pg.text).filterMap (fun id =>
    match dictGet bp id with
    | some target =>
      match pg.searchRects ("Attachment " ++ id) with
      | r :: _ => some (.goto target r)
      | [] => none
    | none => none)

/-- The replacement goto links for a page's `#cover-` URI links with
known positions (lines 420-445 and 455-477). -/
def replacedLinks (bp : List (String × Nat)) (links : List PLink) : List PLink :=
  links.filterMap (fun l =>
    match uriCoverId l with
    | some id =>
      match dictGet bp id with
      | some target => some (.goto target (linkRect l))
      | none => none
    | none => none)

/-- Behavior of `fix_links` on one page.  The source first appends the synthesized
goto links (TOC pages only), then walks the pre-existing link snapshot and
`delete_link`s/`insert_link`s each known `#cover-` URI link.  Since every
inserted link is a `goto` and every deletion removes one `uri` occurrence
from the original portion, the resulting link list is exactly: the
original links minus the known `#cover-` URI ones, then the synthesized
links, then the replacements; the fixed count is the number of
insertions. -/
def fixLinksPage (bp : List (String × Nat)) (isToc : Bool) (pg : Page) : Page × Nat :=
  let synth := if isToc then synthLinks bp pg else []
  let repl := replacedLinks bp pg.links
  ({ pg with links := pg.links.filter (fun l => ¬ uriCoverKnown bp l) ++ synth ++ repl },
    synth.length + repl.length)

/-- Function `fix_links` (`src/pdf/pdf_merger.py` lines 325-484): process the
detected TOC pages (synthesis + replacement) and every other page
(replacement only); returns the updated pages and the number of links
fixed. -/
def fix_links (pages : List Page) (bp : List (String × Nat)) : List Page × Nat :=
  let tocPages := fixLinksTocPages pages
  let processed := (withIdx pages 0).map (fun p => fixLinksPage bp (tocPages.contains p.1) p.2)
  (processed.map Prod.fst, (processed.map (fun r => r.2)).foldl (fun a b => a + b) 0)

/-- The number of links `fix_links` synthesizes from TOC-page text alone
(one per potential attachment id on a detected TOC page with a known
position and a locatable text region; no URI links involved). -/
def synthLinkCount (pages : List Page) (bp : List (String × Nat)) : Nat :=
  (((withIdx pages 0).map (fun p =>
    if (fixLinksTocPages pages).contains p.1 then (synthLinks bp p.2).length else 0)).foldl
    (fun a b => a + b) 0)

/-- The direct page scan of `create_bookmarks` (lines 252-269): for every
page index `i ≥ 2` whose text has `"Attachment "` and `"Page "`, record
`page_info[num] = i` where `num` is parsed from the text (a later page
overwrites an earlier one); a parse failure (`IndexError`) is caught and
skipped. -/
def extractAttachmentNum (text : String) : Option String :=
  match strSplitOn text "Attachment " with
  | _ :: p1 :: _ => ((pySplitWs p1).head?).map rstripColon
  | _ => none

/-- The `page_info` dict built by the `create_bookmarks` scan over the
page texts. -/
def pageInfoScan (texts : List String) : List (String × Nat) :=
  (withIdx texts 0).foldl (fun acc p =>
    if 2 ≤ p.1 ∧ strContains p.2 "Attachment " ∧ strContains p.2 "Page " then
      match extractAttachmentNum p.2 with
      | some num => dictSet acc num p.1
      | none => acc
    else acc) []

/-- The scanned attachment numbers sorted with the key of line 272 (the
same key expression as line 149). -/
def sortedInfoKeys (texts : List String) : List String :=
  List.insertionSort (fun a b => coverSortKey a ≤ coverSortKey b)
    ((pageInfoScan texts).map Prod.fst)

/-- The bookmark title for an attachment number (lines 273-277). -/
def bookmarkTitle (amap : List (String × AttachmentDict)) (num : String) : String :=
  match dictGet amap num with
  | none => "Attachment " ++ num
  | some att => "Attachment " ++ num ++ ": " ++ pyStr (att.title.getD (.vStr "Untitled"))

/-- The attachment section of the rebuilt outline: one level-1 entry per
scanned number, in sorted order, targeting the 1-based page. -/
def attachmentBookmarks (texts : List String) (amap : List (String × AttachmentDict)) :
    List (Nat × String × Nat) :=
  (sortedInfoKeys texts).map (fun num =>
    (1, bookmarkTitle amap num, (dictGet (pageInfoScan texts) num).getD 0 + 1))

/-- The fixed leading outline entries (lines 231-249): the title page,
then the TOC page(s) (with continuation sub-entries), falling back to
page 2 when no TOC page indices were provided. -/
def headerBookmarks (toc_page_indices : List Nat) : List (Nat × String × Nat) :=
  (1, "Title Page", 1) ::
    (match toc_page_indices with
     | [] => [(1, "Table of Contents", 2)]
     | i0 :: rest =>
       (1, "Table of Contents", i0 + 1) ::
         (withIdx rest 1).map (fun p =>
           (2, "Table of Contents (continued " ++ natStr p.1 ++ ")", p.2 + 1)))

/-- The full outline list built by `create_bookmarks`
(`src/pdf/pdf_merger.py` lines 209-323), from the page texts. -/
def createBookmarksToc (texts : List String) (toc_page_indices : List Nat)
    (amap : List (String × AttachmentDict)) : List (Nat × String × Nat) :=
  headerBookmarks toc_page_indices ++ attachmentBookmarks texts amap

/-- Function `create_bookmarks` applied to a document: `set_toc` replaces the whole
outline with the rebuilt list (the save/reopen dance of the source keeps
the pages unchanged). -/
def create_bookmarks_apply (doc : Doc) (toc_page_indices : List Nat)
    (amap : List (String × AttachmentDict)) : Doc :=
  { doc with outline := createBookmarksToc (doc.pages.map Page.text) toc_page_indices amap }

/-- The Reference Patcher pass of the merger: the `fix_links` link rewrite
followed by the `create_bookmarks` outline rebuild.  Returns the patched
document and the fixed-link count. -/
def patchDocument (doc : Doc) (bp : List (String × Nat)) (toc_page_indices : List Nat)
    (amap : List (String × AttachmentDict)) : Doc × Nat :=
  let r := fix_links doc.pages bp
  (create_bookmarks_apply { doc with pages := r.1 } toc_page_indices amap, r.2)

/-- The post-bookmark link check of `merge_pdfs` (lines 543-608): on each
TOC page of the final document, compare the link count against the number
of potential attachment entries with known positions; report whether a
re-fix is needed. -/
def postCheckNeedsRefix (pages : List Page) (bp : List (String × Nat)) : Bool :=
  let tocPages := fixLinksTocPages pages
  let perPage := tocPages.map (fun i =>
    match pages.get? i with
    | some pg =>
      (pg.links.length,
       ((potentialAttachments pg.text).filter (fun id => (dictGet bp id).isSome)).length)
    | none => (0, 0))
  let total_links := (perPage.map Prod.fst).foldl (fun a b => a + b) 0
  let expected := (perPage.map (fun r => r.2)).foldl (fun a b => a + b) 0
  perPage.any (fun p => p.1 < p.2) || total_links < expected

/-- The result of one `merge_pdfs` run. -/
structure MergeResult where
  doc : Doc
  bookmark_positions : List (String × Nat)
  warnings : List String
  links_fixed : Nat

/-- Function `merge_pdfs` (`src/pdf/pdf_merger.py` lines 486-641): check the TOC
PDF exists, locate TOC and cover pages in it, insert the attachments, fix
links, rebuild the outline, then re-fix links on the final document if the
post-check finds links missing. -/
def merge_pdfs (fs : FileSys) (attachments : List AttachmentDict) :
    Except String MergeResult :=
  if ¬ fs.fileExists OUTPUT_PDF then
    .error ("Table of contents PDF not found: " ++ OUTPUT_PDF)
  else
    match fs.openPdf OUTPUT_PDF with
    | none => .error ("fitz.open failed: " ++ OUTPUT_PDF)
    | some toc_pdf =>
      let amap := build_attachment_map attachments
      let toc_page_indices := (locate_toc_page toc_pdf.pages).2.2
      let cover := locate_cover_pages toc_pdf.pages amap
      match insert_attachments fs amap cover with
      | .error e => .error e
      | .ok st =>
        let fixed := fix_links st.merged st.bookmark_positions
        let doc2 := create_bookmarks_apply { pages := fixed.1, outline := [] }
          toc_page_indices amap
        let doc3 :=
          if postCheckNeedsRefix doc2.pages st.bookmark_positions then
            { doc2 with pages := (fix_links doc2.pages st.bookmark_positions).1 }
          else doc2
        .ok { doc := doc3, bookmark_positions := st.bookmark_positions,
              warnings := st.warnings, links_fixed := fixed.2 }

/-- Function `main` of `src/merge_pdfs.py`: read the catalog (with
`for_toc=False`), merge, and exit 0 on success, 1 on any raised error. -/
def merge_pdfs_main (fs : FileSys) : Nat :=
  match read_attachment_data fs.excelExists fs.hasSheet fs.sheet false with
  | .error _ => 1
  | .ok attachments =>
    match merge_pdfs fs attachments with
    | .error _ => 1
    | .ok _ => 0

/-- The warnings of a run (empty when the run raised). -/
def mergeRunWarnings (fs : FileSys) : List String :=
  match read_attachment_data fs.excelExists fs.hasSheet fs.sheet false with
  | .error _ => []
  | .ok attachments =>
    match merge_pdfs fs attachments with
    | .error _ => []
    | .ok r => r.warnings

/-- The final document's outline of a run (empty when the run raised). -/
def mergeRunOutline (fs : FileSys) : List (Nat × String × Nat) :=
  match read_attachment_data fs.excelExists fs.hasSheet fs.sheet false with
  | .error _ => []
  | .ok attachments =>
    match merge_pdfs fs attachments with
    | .error _ => []
    | .ok r => r.doc.outline

/-- Does the page at index `i` carry the TOC heading? -/
def headingAtIdx (pages : List Page) (i : Nat) : Bool :=
  match pages.get? i with
  | some pg => pageHasTocHeading pg
  | none => false

/-- The index of the last page (in an indexed page list) that the cover
scan selects for attachment `id`: later matches shadow earlier ones. -/
def lastMatchIdx (amap : List (String × AttachmentDict)) (id : String) :
    List (Nat × Page) → Option Nat
  | [] => none
  | p :: rest =>
    match lastMatchIdx amap id rest with
    | some j => some j
    | none =>
      if ¬ pageHasTocHeading p.2 ∧ coverSelect amap p.2 = some id then some p.1 else none

/-! ## Refinement-side definition -/

/-- Modelled from the spec: a document "whose links and outline are
already correct with respect to a given anchor map" (§4.4, §8).
Concretely: no page retains a symbolic `#cover-` URI link (the Patcher
replaces rather than accumulates); every attachment entry found on a
detected TOC page whose anchor is known carries a goto link targeting the
anchor map's page; and the outline equals the outline the Patcher's
rebuild would produce. -/
def specAlreadyCorrect (doc : Doc) (bp : List (String × Nat))
    (toc_page_indices : List Nat) (amap : List (String × AttachmentDict)) : Bool :=
  doc.pages.all (fun pg => pg.links.all (fun l => (uriCoverId l).isNone)) &&
  (fixLinksTocPages doc.pages).all (fun i =>
    match doc.pages.get? i with
    | some pg =>
      (potentialAttachments pg.text).all (fun id =>
        match dictGet bp id with
        | some target =>
          pg.links.any (fun l =>
            match l with
            | .goto p _ => p = target
            | .uri _ _ => false)
        | none => true)
    | none => true) &&
  (doc.outline == createBookmarksToc (doc.pages.map Page.text) toc_page_indices amap)

/-! ## Concrete instances used by the witnesses and counterexamples -/

/-- A page with only text: no links, no locatable regions. -/
def textPage (t : String) : Page :=
  { text := t, links := [], searchRects := fun _ => [] }

/-- An attachment dict carrying only a title, for maps that need one. -/
def titledAttachment (n : ℤ) (t : String) : AttachmentDict :=
  { number := some (.vInt n), title := some (.vStr t) }

/-- C2 counterexample: the TOC page of a document that is already fully
patched — its only link is a correct goto link to the cover page. -/
def c2TocPage : Page :=
  { text := "Table of Contents\nAttachment 1    3",
    links := [.goto 1 7],
    searchRects := fun s => if s = "Attachment 1" then [7] else [] }

/-- C2 counterexample: the cover page. -/
def c2CoverPage : Page := textPage "Attachment 1: A\nPage 3"

/-- C2 counterexample: its attachment map. -/
def c2Amap : List (String × AttachmentDict) := [("1", titledAttachment 1 "A")]

/-- C2 counterexample: its anchor map (attachment 1's cover is page 1). -/
def c2Pos : List (String × Nat) := [("1", 1)]

/-- C2 counterexample: the already-correct document (outline as rebuilt). -/
def c2Doc : Doc :=
  { pages := [c2TocPage, c2CoverPage],
    outline := createBookmarksToc [c2TocPage.text, c2CoverPage.text] [0] c2Amap }

/-- C3/C9/C10 concrete attachments. -/
def c3Att1 : AttachmentDict := { number := some (.vInt 1), pageCount := some (.vInt 3) }

/-- Second C3 attachment. -/
def c3Att2 : AttachmentDict := { number := some (.vInt 2), pageCount := some (.vInt 5) }

/-- C10: an attachment declaring zero pages. -/
def c10Att1 : AttachmentDict := { number := some (.vInt 1), pageCount := some (.vInt 0) }

/-- C9 counterexample: a numeric attachment number with the page count
`"inf"`, on which `int(float('inf'))` raises uncaught `OverflowError`. -/
def c9InfAtt : AttachmentDict :=
  { number := some (.vInt 1), pageCount := some (.vStr "inf") }

/-- C5 counterexample: two pages that both match the cover-page pattern
for attachment 1, with a filler page between. -/
def c5Doc : List Page :=
  [textPage "Attachment 1\nPage 2", textPage "filler", textPage "Attachment 1\nPage 9"]

/-- C5 counterexample: the attachment map with the single number `1`. -/
def c5Amap : List (String × AttachmentDict) := [("1", titledAttachment 1 "A")]

/-- A page whose text is just the TOC heading. -/
def c6HeadPage : Page := textPage "Table of Contents"

/-- C6: a TOC continuation-shaped page (an `Attachment <n> <page>` row). -/
def c6ContPage : Page := textPage "Attachment 14 50"

/-- C6 counterexample: a document whose TOC spans three heading pages. -/
def c6DocA : List Page := [c6HeadPage, c6HeadPage, c6HeadPage, textPage "x"]

/-- C6 counterexample: a document whose main TOC page sits at index 2 and
whose continuation-shaped page sits at index 3. -/
def c6DocB : List Page := [textPage "a", textPage "b", c6HeadPage, c6ContPage]

/-- C7 witness: page texts of a small assembled document (covers supplied
out of order). -/
def c7Texts : List String :=
  ["Table of Contents", "x", "Attachment 2: B\nPage 9", "Attachment 1: A\nPage 5"]

/-- C7 witness: its attachment map. -/
def c7Amap : List (String × AttachmentDict) :=
  [("1", titledAttachment 1 "A"), ("2", titledAttachment 2 "B")]

/-- C8: the spreadsheet of the missing-file scenario. -/
def c8Sheet : Sheet :=
  { headers := [some "Attachment Number", some "Title", some "Filename Reference",
                some "Page count"],
    rows := [[.vInt 1, .vStr "One", .vStr "f1.pdf", .vInt 2],
             [.vInt 7, .vStr "Seven", .vStr "f7.pdf", .vInt 1]] }

/-- C8: the rendered TOC/cover PDF: a TOC page with two URI links, a
filler page, and the two cover pages. -/
def c8TocPdf : Doc :=
  { pages :=
      [{ text := "Table of Contents\nAttachment 1    4\nAttachment 7    6",
         links := [.uri "#cover-1" 0, .uri "#cover-7" 1],
         searchRects := fun s =>
           if s = "Attachment 1" then [0] else if s = "Attachment 7" then [1] else [] },
       textPage "Intro",
       textPage "Attachment 1\nPage 4",
       textPage "Attachment 7\nPage 6"] }

/-- C8: attachment 1's PDF (two content pages). -/
def c8Att1Pdf : Doc := { pages := [textPage "contentA", textPage "contentB"] }

/-- C8: the file system of the missing-file scenario: the TOC PDF and
attachment 1's file exist; attachment 7's file does not. -/
def c8Fs : FileSys :=
  { excelExists := true, hasSheet := true, sheet := c8Sheet,
    fileExists := fun p => p = OUTPUT_PDF ∨ p = "input-files/en/f1.pdf",
    openPdf := fun p =>
      if p = OUTPUT_PDF then some c8TocPdf
      else if p = "input-files/en/f1.pdf" then some c8Att1Pdf
      else none }

/-- C8 witness: a file system whose sheet lacks the required
`Filename Reference` column. -/
def c8FsNoField : FileSys :=
  { excelExists := true, hasSheet := true,
    sheet := { headers := [some "Attachment Number", some "Title"], rows := [] },
    fileExists := fun _ => false, openPdf := fun _ => none }

/-- C8 witness: a file system with a valid sheet but no TOC PDF on disk. -/
def c8FsNoToc : FileSys :=
  { excelExists := true, hasSheet := true, sheet := c8Sheet,
    fileExists := fun _ => false, openPdf := fun _ => none }

/-- C8 witness: what `read_attachment_data` yields on `c8Sheet`. -/
def c8Attachments : List AttachmentDict :=
  [{ number := some (.vInt 1), title := some (.vStr "One"),
     filename := some (.vStr "f1.pdf"), pageCount := some (.vInt 2),
     language := some (.vStr "EN") },
   { number := some (.vInt 7), title := some (.vStr "Seven"),
     filename := some (.vStr "f7.pdf"), pageCount := some (.vInt 1),
     language := some (.vStr "EN") }]

/-! # Helper lemmas -/

theorem dictGet_cons {K V : Type} [DecidableEq K] (p : K × V) (d : List (K × V)) (k : K) :
    dictGet (p :: d) k = if p.1 = k then some p.2 else dictGet d k := by
  by_cases h : p.1 = k
  · simp [dictGet, List.find?_cons_of_pos, h]
  · simp [dictGet, List.find?_cons_of_neg, h]

theorem dictGet_map_update_ne {K V : Type} [DecidableEq K] (d : List (K × V)) (k k' : K)
    (v : V) (h : k' ≠ k) :
    dictGet (d.map (fun p => if p.1 = k then (k, v) else p)) k' = dictGet d k' := by
  induction d with
  | nil => rfl
  | cons a d ih =>
    by_cases ha : a.1 = k
    · rw [List.map_cons, show (if a.1 = k then (k, v) else a) = (k, v) from if_pos ha,
        dictGet_cons, dictGet_cons, ha,
        if_neg (show ¬ k = k' from fun hh => h hh.symm),
        if_neg (show ¬ k = k' from fun hh => h hh.symm), ih]
    · rw [List.map_cons, show (if a.1 = k then (k, v) else a) = a from if_neg ha,
        dictGet_cons, dictGet_cons, ih]

theorem dictGet_append_single_ne {K V : Type} [DecidableEq K] (d : List (K × V)) (k k' : K)
    (v : V) (h : k' ≠ k) :
    dictGet (d ++ [(k, v)]) k' = dictGet d k' := by
  induction d with
  | nil =>
    rw [List.nil_append, dictGet_cons,
      if_neg (show ¬ k = k' from fun hh => h hh.symm)]
  | cons a d ih => rw [List.cons_append, dictGet_cons, dictGet_cons, ih]

theorem dictGet_dictSet_ne {K V : Type} [DecidableEq K] (d : List (K × V)) (k k' : K)
    (v : V) (h : k' ≠ k) :
    dictGet (dictSet d k v) k' = dictGet d k' := by
  unfold dictSet
  split
  · exact dictGet_map_update_ne d k k' v h
  · exact dictGet_append_single_ne d k k' v h

theorem dictGet_map_update_self {K V : Type} [DecidableEq K] (d : List (K × V)) (k : K)
    (v : V) (h : d.any (fun p => p.1 = k) = true) :
    dictGet (d.map (fun p => if p.1 = k then (k, v) else p)) k = some v := by
  induction d with
  | nil => simp at h
  | cons a d ih =>
    by_cases ha : a.1 = k
    · rw [List.map_cons, show (if a.1 = k then (k, v) else a) = (k, v) from if_pos ha,
        dictGet_cons, if_pos rfl]
    · simp only [List.any_cons, Bool.or_eq_true] at h
      rcases h with h | h
      · simp [ha] at h
      · rw [List.map_cons, show (if a.1 = k then (k, v) else a) = a from if_neg ha,
          dictGet_cons, if_neg ha]
        exact ih h

theorem dictGet_append_single_self {K V : Type} [DecidableEq K] (d : List (K × V)) (k : K)
    (v : V) (h : d.any (fun p => p.1 = k) = false) :
    dictGet (d ++ [(k, v)]) k = some v := by
  induction d with
  | nil =>
    rw [List.nil_append, dictGet_cons, if_pos rfl]
  | cons a d ih =>
    simp only [List.any_cons, Bool.or_eq_false_iff] at h
    rw [List.cons_append, dictGet_cons, if_neg (by simpa using h.1)]
    exact ih h.2

theorem dictGet_dictSet_self {K V : Type} [DecidableEq K] (d : List (K × V)) (k : K) (v : V) :
    dictGet (dictSet d k v) k = some v := by
  unfold dictSet
  split
  · exact dictGet_map_update_self d k v (by assumption)
  · rename_i h
    exact dictGet_append_single_self d k v (Bool.eq_false_iff.mpr h)

theorem mem_withIdx_lower {α : Type} (l : List α) :
    ∀ (n i : Nat) (a : α), (i, a) ∈ withIdx l n → n ≤ i := by
  induction l with
  | nil => intro n i a h; simp [withIdx] at h
  | cons b l ih =>
    intro n i a h
    simp only [withIdx, List.mem_cons] at h
    rcases h with h | h
    · simp only [Prod.mk.injEq] at h
      omega
    · have := ih (n + 1) i a h
      omega

theorem withIdx_mem_get? {α : Type} (l : List α) :
    ∀ (n i : Nat) (a : α), (i, a) ∈ withIdx l n → l.get? (i - n) = some a := by
  induction l with
  | nil => intro n i a h; simp [withIdx] at h
  | cons b l ih =>
    intro n i a h
    simp only [withIdx, List.mem_cons] at h
    rcases h with h | h
    · simp only [Prod.mk.injEq] at h
      obtain ⟨rfl, rfl⟩ := h
      simp
    · have hlow := mem_withIdx_lower l (n + 1) i a h
      have := ih (n + 1) i a h
      rw [show i - n = (i - (n + 1)) + 1 by omega]
      simpa using this

theorem withIdx_mem_snd {α : Type} (l : List α) :
    ∀ (n : Nat) (p : Nat × α), p ∈ withIdx l n → p.2 ∈ l := by
  induction l with
  | nil => intro n p h; simp [withIdx] at h
  | cons b l ih =>
    intro n p h
    simp only [withIdx, List.mem_cons] at h
    rcases h with h | h
    · subst h; simp
    · exact List.mem_cons_of_mem _ (ih (n + 1) p h)

theorem dictGet_applyInsertShift {K : Type} [DecidableEq K] (m : List (K × Nat))
    (ip kk : Nat) (key : K) :
    dictGet (applyInsertShift m ip kk) key
      = (dictGet m key).map (fun v => if ip ≤ v then v + kk else v) := by
  induction m with
  | nil => rfl
  | cons a m ih =>
    simp only [applyInsertShift, List.map_cons] at ih ⊢
    by_cases hip : ip ≤ a.2
    · rw [show (if ip ≤ a.2 then (a.1, a.2 + kk) else a) = (a.1, a.2 + kk) from if_pos hip,
        dictGet_cons, dictGet_cons]
      by_cases hk : a.1 = key
      · rw [if_pos hk, if_pos hk]; simp [Option.map_some', hip]
      · rw [if_neg hk, if_neg hk, ih]
    · rw [show (if ip ≤ a.2 then (a.1, a.2 + kk) else a) = a from if_neg hip,
        dictGet_cons, dictGet_cons]
      by_cases hk : a.1 = key
      · rw [if_pos hk, if_pos hk]; simp [Option.map_some', hip]
      · rw [if_neg hk, if_neg hk, ih]

/-- C1: in `insert_attachments`, after an attachment of `k` pages is
inserted at position `p + 1` (right after a cover page recorded at `p`),
every previously recorded position `≥ p + 1` in the page mapping and in
the bookmark-position map is incremented by exactly `k`, and every
recorded position `< p + 1` is unchanged. -/
theorem C1_splice_offset_bookkeeping (page_mapping : List (Nat × Nat))
    (bookmark_positions : List (String × Nat)) (p k : Nat) :
    (∀ orig pos, dictGet page_mapping orig = some pos →
      (p + 1 ≤ pos → dictGet (applyInsertShift page_mapping (p + 1) k) orig = some (pos + k)) ∧
      (pos < p + 1 → dictGet (applyInsertShift page_mapping (p + 1) k) orig = some pos)) ∧
    (∀ num pos, dictGet bookmark_positions num = some pos →
      (p + 1 ≤ pos → dictGet (applyInsertShift bookmark_positions (p + 1) k) num = some (pos + k)) ∧
      (pos < p + 1 → dictGet (applyInsertShift bookmark_positions (p + 1) k) num = some pos)) := by
  constructor
  · intro orig pos h
    rw [dictGet_applyInsertShift, h]
    constructor
    · intro hle; simp [Option.map_some', if_pos hle]
    · intro hlt; simp [Option.map_some', if_neg (show ¬ p + 1 ≤ pos by omega)]
  · intro num pos h
    rw [dictGet_applyInsertShift, h]
    constructor
    · intro hle; simp [Option.map_some', if_pos hle]
    · intro hlt; simp [Option.map_some', if_neg (show ¬ p + 1 ≤ pos by omega)]

/-- Witness for C1 at a concrete splice: inserting `k = 4` pages after
the cover recorded at `p = 2` shifts recorded positions `5 ↦ 9` and keeps
position `2` unchanged. -/
theorem C1_splice_offset_bookkeeping_witness :
    dictGet (applyInsertShift [(0, 0), (1, 1), (3, 5)] (2 + 1) 4) 3 = some 9 ∧
    dictGet (applyInsertShift [("1", 2), ("2", 5)] (2 + 1) 4) "2" = some 9 ∧
    dictGet (applyInsertShift [("1", 2), ("2", 5)] (2 + 1) 4) "1" = some 2 :=
  ⟨((C1_splice_offset_bookkeeping [(0, 0), (1, 1), (3, 5)] [("1", 2), ("2", 5)] 2 4).1
      3 5 (by decide)).1 (by decide),
   ((C1_splice_offset_bookkeeping [(0, 0), (1, 1), (3, 5)] [("1", 2), ("2", 5)] 2 4).2
      "2" 5 (by decide)).1 (by decide),
   ((C1_splice_offset_bookkeeping [(0, 0), (1, 1), (3, 5)] [("1", 2), ("2", 5)] 2 4).2
      "1" 2 (by decide)).2 (by decide)⟩

/-- C4: for every entry count, the TOC page-count estimate equals
`⌈entry_count / capacity⌉` clamped to `[1, 3]`, with the configured
capacity `TOC_ENTRIES_PER_PAGE = 25`. -/
theorem C4_toc_size_estimate (entry_count : Nat) :
    tocPagesEstimate entry_count
      = min 3 (max 1 (entry_count ⌈/⌉ TOC_ENTRIES_PER_PAGE)) := by
  rw [Nat.ceilDiv_eq_add_pred_div]
  unfold tocPagesEstimate TOC_ENTRIES_PER_PAGE
  omega

/-- C3 counterexample: on the spec's scenario (attachments 1 and 2 with 3
and 5 declared pages, no title page, no foreword), `calculate_page_map`
assigns pages 3 and 7, not the claimed 2 and 6. -/
theorem C3_counterexample :
    (calculate_page_map 0 false 0 [c3Att1, c3Att2]).map
        (fun m => (dictGet m "1", dictGet m "2"))
      = some (some 3, some 7) ∧
    ((some 3, some 7) : Option ℤ × Option ℤ) ≠ (some 2, some 6) := by
  constructor
  · decide
  · decide

/-- C3 (amended): on the scenario the estimator's page map is `{1 ↦ 3,
2 ↦ 7}` — `calculate_page_map` starts one page past the first cover
(`1 + toc_pages + 1`) and advances by declared pages plus one. -/
theorem C3_estimator_scenario :
    calculate_page_map 0 false 0 [c3Att1, c3Att2] = some [("1", 3), ("2", 7)] := by
  decide

theorem optionMapList_isSome {α β : Type} (f : α → Option β) (l : List α)
    (h : ∀ a ∈ l, (f a).isSome) : (optionMapList f l).isSome := by
  induction l with
  | nil => rfl
  | cons a l ih =>
    have ha := h a (List.mem_cons_self a l)
    have hl := ih (fun b hb => h b (List.mem_cons_of_mem a hb))
    simp only [optionMapList]
    cases hfa : f a with
    | none => rw [hfa] at ha; simp at ha
    | some b =>
      cases hfl : optionMapList f l with
      | none => rw [hfl] at hl; simp at hl
      | some bs => rfl

theorem optionMapList_mem {α β : Type} (f : α → Option β) :
    ∀ (l : List α) (bs : List β), optionMapList f l = some bs →
      ∀ b ∈ bs, ∃ a ∈ l, f a = some b := by
  intro l
  induction l with
  | nil =>
    intro bs h b hb
    simp only [optionMapList] at h
    cases h
    simp at hb
  | cons a t ih =>
    intro bs h b hb
    simp only [optionMapList] at h
    cases hfa : f a with
    | none => rw [hfa] at h; simp at h
    | some v =>
      rw [hfa] at h
      cases ht : optionMapList f t with
      | none => rw [ht] at h; simp at h
      | some vs =>
        rw [ht] at h
        have hbs : v :: vs = bs := by simpa using h
        subst hbs
        cases hb with
        | head => exact ⟨a, List.mem_cons_self a t, hfa⟩
        | tail _ hb2 =>
          obtain ⟨x, hx, hfx⟩ := ih vs ht b hb2
          exact ⟨x, List.mem_cons_of_mem a hx, hfx⟩

theorem estStep_foldl_isSome :
    ∀ (xs : List AttachmentDict) (st : List (String × ℤ) × ℤ),
      (∀ a ∈ xs, exceptOk (normalize_page_count_exc (a.pageCount.getD (.vInt 1))) = true) →
      (xs.foldl estStep (some st)).isSome := by
  intro xs
  induction xs with
  | nil => intro st h; rfl
  | cons a t ih =>
    intro st h
    obtain ⟨m, cur⟩ := st
    have ha := h a (List.mem_cons_self a t)
    have ht := fun b hb => h b (List.mem_cons_of_mem a hb)
    rw [List.foldl_cons]
    cases hn : normalize_page_count_exc (a.pageCount.getD (.vInt 1)) with
    | ok n =>
      have hstep : estStep (some (m, cur)) a
          = some (dictSet m (normalize_attachment_number (a.number.getD (.vStr ""))) cur,
              cur + (n + 1)) := by
        simp [estStep, hn]
      rw [hstep]
      exact ih _ ht
    | error e => rw [hn] at ha; simp [exceptOk] at ha

theorem calculate_page_map_eq (tpc : Nat) (fe : Bool) (fpc : Nat)
    (atts : List AttachmentDict) :
    calculate_page_map tpc fe fpc atts =
      match optionMapList (fun a => (estSortKey a).map (fun q => (q, a))) atts with
      | none => none
      | some keyed =>
        (((List.insertionSort (fun x y => x.1 ≤ y.1) keyed).map Prod.snd).foldl estStep
          (some ([], ((1 + tpc + fpc +
            tocPagesEstimate (atts.length + (if fe then 1 else 0)) + 1 : Nat) : ℤ)))).map
          Prod.fst := rfl

theorem normalize_page_count_exc_agrees (v : PyVal) (n : ℤ)
    (h : normalize_page_count_exc v = .ok n) : normalize_page_count v = n := by
  cases v with
  | vFloat q =>
    simp only [normalize_page_count_exc, Except.ok.injEq] at h
    simpa [normalize_page_count] using h
  | vInt m =>
    simp only [normalize_page_count_exc, Except.ok.injEq] at h
    simpa [normalize_page_count] using h
  | vBool b =>
    simp only [normalize_page_count_exc, Except.ok.injEq] at h
    simpa [normalize_page_count] using h
  | vNone =>
    simp only [normalize_page_count_exc, Except.ok.injEq] at h
    simpa [normalize_page_count] using h
  | vStr s =>
    simp only [normalize_page_count_exc] at h
    cases hf : pyFloatLit s with
    | none =>
      rw [hf] at h
      simp only [Except.ok.injEq] at h
      simp [normalize_page_count, pyFloatParse, hf, h]
    | some pf =>
      rw [hf] at h
      cases pf with
      | finite q =>
        simp only [Except.ok.injEq] at h
        simp [normalize_page_count, pyFloatParse, hf, h]
      | inf b => simp at h
      | nan =>
        simp only [Except.ok.injEq] at h
        simp [normalize_page_count, pyFloatParse, hf, h]

/-- C9 counterexample: the claim says the Layout Estimator never fails
and defaults every unparseable page count to 1, but Python `float()`
parses the page-count strings `'inf'` and `'1e999'` to infinity, on
which `int()` raises `OverflowError` — an exception the
`except (ValueError, TypeError)` clause of `normalize_page_count` does
not catch — so `calculate_page_map` crashes on such a catalog even
though the attachment number's sort key is numeric. -/
theorem C9_counterexample :
    pyFloatLit "inf" = some (.inf false) ∧
    pyFloatLit "1e999" = some (.inf false) ∧
    normalize_page_count_exc (.vStr "inf")
      = .error "OverflowError: cannot convert float infinity to integer" ∧
    normalize_page_count_exc (.vStr "1e999")
      = .error "OverflowError: cannot convert float infinity to integer" ∧
    (estSortKey c9InfAtt).isSome = true ∧
    calculate_page_map 0 false 0 [c9InfAtt] = none := by
  decide

/-- C9 (amended): the Layout Estimator is total only away from the
`OverflowError` path — `calculate_page_map` produces a page map whenever
every attachment number has a parseable sort key AND every declared page
count normalizes without raising; a page-count string that `float()`
cannot parse at all defaults to 1 (as does `None`), but a page-count
string that `float()` parses to an infinity (such as `'inf'` or the
overflow literal `'1e999'`) raises an uncaught `OverflowError` instead
of defaulting. -/
theorem C9_estimator_totality :
    (∀ (titlePageCount : Nat) (forewordExists : Bool) (forewordPageCount : Nat)
        (attachments : List AttachmentDict),
      (∀ a ∈ attachments, (estSortKey a).isSome) →
      (∀ a ∈ attachments,
        exceptOk (normalize_page_count_exc (a.pageCount.getD (.vInt 1))) = true) →
      (calculate_page_map titlePageCount forewordExists forewordPageCount
        attachments).isSome) ∧
    (∀ s : String, pyFloatLit s = none → normalize_page_count_exc (.vStr s) = .ok 1) ∧
    (normalize_page_count_exc .vNone = .ok 1) ∧
    (∀ (s : String) (b : Bool), pyFloatLit s = some (.inf b) →
      normalize_page_count_exc (.vStr s)
        = .error "OverflowError: cannot convert float infinity to integer") := by
  refine ⟨?_, ?_, rfl, ?_⟩
  · intro tpc fe fpc atts h1 h2
    rw [calculate_page_map_eq]
    have hms : (optionMapList (fun a => (estSortKey a).map (fun q => (q, a))) atts).isSome := by
      apply optionMapList_isSome
      intro a ha
      have := h1 a ha
      cases hk : estSortKey a with
      | none => rw [hk] at this; simp at this
      | some q => simp [hk]
    cases hm : optionMapList (fun a => (estSortKey a).map (fun q => (q, a))) atts with
    | none => rw [hm] at hms; simp at hms
    | some keyed =>
      have hmem : ∀ a ∈ (List.insertionSort
          (fun x y : WithBot (WithTop ℚ) × AttachmentDict => x.1 ≤ y.1) keyed).map Prod.snd,
          exceptOk (normalize_page_count_exc (a.pageCount.getD (.vInt 1))) = true := by
        intro a ha
        obtain ⟨p, hp, hpa⟩ := List.mem_map.mp ha
        have hpk : p ∈ keyed := (List.perm_insertionSort _ keyed).mem_iff.mp hp
        obtain ⟨x, hx, hfx⟩ := optionMapList_mem _ atts keyed hm p hpk
        cases hek : estSortKey x with
        | none => rw [hek] at hfx; simp at hfx
        | some k =>
          rw [hek] at hfx
          simp only [Option.map_some', Option.some.injEq] at hfx
          subst hfx
          have hxa : x = a := hpa
          subst hxa
          exact h2 x hx
      simp only [Option.isSome_map']
      exact estStep_foldl_isSome _ _ hmem
  · intro s h
    simp [normalize_page_count_exc, h]
  · intro s b h
    simp [normalize_page_count_exc, h]

/-- Witness for C9: the amended theorem applied at the concrete numeric
catalog of C3 (all sort keys parseable, all page counts finite), at the
unparseable page count `"N/A"`, and at the overflow literal `"1e999"`. -/
theorem C9_estimator_totality_witness :
    (calculate_page_map 0 false 0 [c3Att1, c3Att2]).isSome ∧
    normalize_page_count_exc (.vStr "N/A") = .ok 1 ∧
    normalize_page_count_exc (.vStr "1e999")
      = .error "OverflowError: cannot convert float infinity to integer" :=
  ⟨C9_estimator_totality.1 0 false 0 [c3Att1, c3Att2] (by decide) (by decide),
   C9_estimator_totality.2.1 "N/A" (by decide),
   C9_estimator_totality.2.2.2 "1e999" false (by decide)⟩

/-- C10: `normalize_page_count` truncates parseable non-integer numerics
toward zero (2.9 ↦ 2, 0.5 ↦ 0) instead of defaulting them to 1, returns
integer inputs (zero or negative included) unchanged, and such a value
flows into the layout estimate (an attachment declaring 0 pages advances
the cursor by only 1). -/
theorem C10_page_count_truncation :
    normalize_page_count (.vFloat (Rat.divInt 29 10)) = 2 ∧
    normalize_page_count (.vFloat (Rat.divInt 1 2)) = 0 ∧
    (∀ n : ℤ, normalize_page_count (.vInt n) = n) ∧
    calculate_page_map 0 false 0 [c10Att1, c3Att2] = some [("1", 3), ("2", 4)] :=
  ⟨by decide, by decide, fun n => rfl, by decide⟩

theorem locCovAux_dictGet (amap : List (String × AttachmentDict)) (id : String) :
    ∀ (l : List (Nat × Page)) (acc : List (String × Nat)),
      dictGet (locCovAux amap l acc) id =
        match lastMatchIdx amap id l with
        | some j => some j
        | none => dictGet acc id := by
  intro l
  induction l with
  | nil => intro acc; rfl
  | cons p rest ih =>
    intro acc
    by_cases hh : pageHasTocHeading p.2
    · rw [show locCovAux amap (p :: rest) acc = locCovAux amap rest acc by
        simp [locCovAux, hh], ih]
      have : lastMatchIdx amap id (p :: rest) = lastMatchIdx amap id rest := by
        simp only [lastMatchIdx]
        cases lastMatchIdx amap id rest with
        | some j => rfl
        | none => simp [hh]
      rw [this]
    · cases hsel : coverSelect amap p.2 with
      | some id' =>
        rw [show locCovAux amap (p :: rest) acc = locCovAux amap rest (dictSet acc id' p.1) by
          simp [locCovAux, hh, hsel], ih]
        simp only [lastMatchIdx]
        cases lastMatchIdx amap id rest with
        | some j => rfl
        | none =>
          by_cases hid : id' = id
          · subst hid
            simp [hh, hsel, dictGet_dictSet_self]
          · simp [hh, hsel, hid, dictGet_dictSet_ne acc id' id _ (Ne.symm hid)]
      | none =>
        rw [show locCovAux amap (p :: rest) acc = locCovAux amap rest acc by
          simp [locCovAux, hh, hsel], ih]
        simp only [lastMatchIdx]
        cases lastMatchIdx amap id rest with
        | some j => rfl
        | none => simp [hh, hsel]

/-- C5 (amended): in the Position Resolver's page scan
(`locate_cover_pages`), the recorded cover page for an attachment number
is the LAST page whose pattern selects that number — a later matching
page overwrites the recorded index, because the scan stores
unconditionally. -/
theorem C5_last_match_wins (pages : List Page) (amap : List (String × AttachmentDict))
    (id : String) :
    dictGet (locate_cover_pages pages amap) id = lastMatchIdx amap id (withIdx pages 0) := by
  unfold locate_cover_pages
  rw [locCovAux_dictGet]
  cases lastMatchIdx amap id (withIdx pages 0) with
  | some j => rfl
  | none => rfl

/-- C5 counterexample: pages 0 and 2 both match the cover pattern for
attachment 1; the scan records page 2, overwriting the first match at
page 0 — "first match wins" is false. -/
theorem C5_counterexample :
    coverSelect c5Amap (textPage "Attachment 1\nPage 2") = some "1" ∧
    locate_cover_pages c5Doc c5Amap = [("1", 2)] := by
  constructor
  · decide
  · decide

theorem locTocAux_mem (pages : List Page) :
    ∀ (l : List (Nat × Page)) (idxs : List Nat) (links : List (String × PLink)),
      (∀ p ∈ l, p ∈ withIdx pages 0) →
      (∀ i ∈ idxs, headingAtIdx pages i = true ∨ i = 2) →
      ∀ i ∈ (locTocAux l (idxs, links)).1, headingAtIdx pages i = true ∨ i = 2 := by
  intro l
  induction l with
  | nil => intro idxs links _ hacc i hi; exact hacc i hi
  | cons p rest ih =>
    obtain ⟨pi, pg⟩ := p
    intro idxs links hsub hacc i hi
    have hsub' : ∀ q ∈ rest, q ∈ withIdx pages 0 :=
      fun q hq => hsub q (List.mem_cons_of_mem _ hq)
    have hmem : ((pi, pg) : Nat × Page) ∈ withIdx pages 0 :=
      hsub _ (List.mem_cons_self _ _)
    by_cases hh : pageHasTocHeading pg
    · rw [show locTocAux ((pi, pg) :: rest) (idxs, links)
          = locTocAux rest (idxs ++ [pi], collectCoverLinks pg.links links) from by
        simp [locTocAux, hh]] at hi
      refine ih (idxs ++ [pi]) _ hsub' ?_ i hi
      intro j hj
      rcases List.mem_append.mp hj with hj | hj
      · exact hacc j hj
      · have hji : j = pi := by simpa using hj
        subst hji
        left
        have hget := withIdx_mem_get? pages 0 j pg hmem
        rw [Nat.sub_zero] at hget
        unfold headingAtIdx
        rw [hget]
        exact hh
    · by_cases hc : pi = 2 ∧ ¬ idxs.contains pi ∧ strContains pg.text "Attachment "
          ∧ reSearchAttachmentEntry pg.text.toList
      · rw [show locTocAux ((pi, pg) :: rest) (idxs, links)
            = locTocAux rest (idxs ++ [pi], collectCoverLinks pg.links links) from by
          simp only [locTocAux]
          rw [if_neg hh, if_pos hc]] at hi
        refine ih (idxs ++ [pi]) _ hsub' ?_ i hi
        intro j hj
        rcases List.mem_append.mp hj with hj | hj
        · exact hacc j hj
        · have hji : j = pi := by simpa using hj
          subst hji
          right
          exact hc.1
      · rw [show locTocAux ((pi, pg) :: rest) (idxs, links)
            = locTocAux rest (idxs, links) from by
          simp only [locTocAux]
          rw [if_neg hh, if_neg hc]] at hi
        exact ih idxs links hsub' hacc i hi

theorem locate_toc_page_indices (pages : List Page) :
    (locate_toc_page pages).2.2
      = (if (locTocAux (withIdx pages 0) ([], [])).1.length > 2
         then (locTocAux (withIdx pages 0) ([], [])).1.take 2
         else (locTocAux (withIdx pages 0) ([], [])).1) := rfl

/-- C6 (amended): the TOC-page scan of `locate_toc_page` never reports
more than two TOC pages (three or more detected pages are truncated to
the first two), and every reported page either carries the
"Table of Contents" heading or is the hard-coded continuation index 2 —
so the detected count is capped at 2, below the spec's bound of 3. -/
theorem C6_toc_scan_capped (pages : List Page) :
    ((locate_toc_page pages).2.2).length ≤ 2 ∧
    ∀ i ∈ (locate_toc_page pages).2.2, headingAtIdx pages i = true ∨ i = 2 := by
  rw [locate_toc_page_indices]
  constructor
  · by_cases h2 : (locTocAux (withIdx pages 0) ([], [])).1.length > 2
    · rw [if_pos h2, List.length_take]
      omega
    · rw [if_neg h2]
      omega
  · intro i hi
    have hmem : i ∈ (locTocAux (withIdx pages 0) ([], [])).1 := by
      by_cases h2 : (locTocAux (withIdx pages 0) ([], [])).1.length > 2
      · rw [if_pos h2] at hi
        exact (List.take_sublist 2 _).subset hi
      · rwa [if_neg h2] at hi
    exact locTocAux_mem pages (withIdx pages 0) [] [] (fun p hp => hp) (by simp) i hmem

/-- Witness for C6 at a concrete document with three TOC heading pages:
the reported list has at most two entries, and its member 0 carries the
heading. -/
theorem C6_toc_scan_capped_witness :
    ((locate_toc_page c6DocA).2.2).length ≤ 2 ∧
    (headingAtIdx c6DocA 0 = true ∨ 0 = 2) :=
  ⟨(C6_toc_scan_capped c6DocA).1,
   (C6_toc_scan_capped c6DocA).2 0 (by decide)⟩

/-- C6 counterexample: a document whose TOC spans three heading pages is
reported as exactly two (`[0, 1]`) — the scan imposes an upper limit of 2,
below 3, contradicting the claim; and a continuation-shaped page at
physical index 3 (after a main TOC page at index 2) is not added at all. -/
theorem C6_counterexample :
    headingAtIdx c6DocA 2 = true ∧ (locate_toc_page c6DocA).2.2 = [0, 1] ∧
    strContains c6ContPage.text "Attachment " = true ∧
    reSearchAttachmentEntry c6ContPage.text.toList = true ∧
    (locate_toc_page c6DocB).2.2 = [2] := by
  refine ⟨by decide, by decide, by decide, by decide, by decide⟩

/-- C7: the rebuilt outline's attachment entries are strictly ascending
by the numeric sort key of their attachment numbers (regardless of the
order in which covers appear in the document), they are exactly the image
of the sorted scanned numbers, and the outline rebuild replaces any
pre-existing outline wholesale (the output is independent of it).  The
hypothesis is the data model's key-uniqueness: distinct attachments have
distinct canonical numbers. -/
theorem C7_outline_ordering (texts : List String) (toc_page_indices : List Nat)
    (amap : List (String × AttachmentDict)) (doc : Doc) (old : List (Nat × String × Nat))
    (hdist : ((pageInfoScan texts).map Prod.fst).Pairwise
      (fun a b => coverSortKey a ≠ coverSortKey b)) :
    (sortedInfoKeys texts).Pairwise (fun a b => coverSortKey a < coverSortKey b) ∧
    createBookmarksToc texts toc_page_indices amap
      = headerBookmarks toc_page_indices ++
          (sortedInfoKeys texts).map (fun num =>
            (1, bookmarkTitle amap num, (dictGet (pageInfoScan texts) num).getD 0 + 1)) ∧
    (create_bookmarks_apply { doc with outline := old } toc_page_indices amap).outline
      = (create_bookmarks_apply doc toc_page_indices amap).outline := by
  refine ⟨?_, rfl, rfl⟩
  letI : IsTotal String (fun a b => coverSortKey a ≤ coverSortKey b) :=
    ⟨fun a b => le_total _ _⟩
  letI : IsTrans String (fun a b => coverSortKey a ≤ coverSortKey b) :=
    ⟨fun a b c hab hbc => le_trans hab hbc⟩
  have hsorted : List.Sorted (fun a b => coverSortKey a ≤ coverSortKey b)
      (sortedInfoKeys texts) := List.sorted_insertionSort _ _
  have hperm : List.Perm (sortedInfoKeys texts) ((pageInfoScan texts).map Prod.fst) :=
    List.perm_insertionSort _ _
  have hdist' : (sortedInfoKeys texts).Pairwise
      (fun a b => coverSortKey a ≠ coverSortKey b) :=
    (hperm.pairwise_iff (fun h => Ne.symm h)).mpr hdist
  exact (hsorted.and hdist').imp (fun h => lt_of_le_of_ne h.1 h.2)

/-- Witness for C7 on a concrete document whose covers appear out of
order (attachment 2's cover before attachment 1's). -/
theorem C7_outline_ordering_witness :
    (sortedInfoKeys c7Texts).Pairwise (fun a b => coverSortKey a < coverSortKey b) ∧
    createBookmarksToc c7Texts [0] c7Amap
      = headerBookmarks [0] ++
          (sortedInfoKeys c7Texts).map (fun num =>
            (1, bookmarkTitle c7Amap num, (dictGet (pageInfoScan c7Texts) num).getD 0 + 1)) ∧
    (create_bookmarks_apply { pages := [], outline := [(1, "stale", 9)] } [0] c7Amap).outline
      = (create_bookmarks_apply { pages := [], outline := [] } [0] c7Amap).outline :=
  C7_outline_ordering c7Texts [0] c7Amap { pages := [], outline := [] } [(1, "stale", 9)]
    (by decide)

theorem withIdx_map_snd {α γ : Type} (G : Nat × α → γ) (H : α → γ)
    (hc : ∀ p : Nat × α, G p = H p.2) :
    ∀ (l : List α) (n : Nat), (withIdx l n).map G = l.map H := by
  intro l
  induction l with
  | nil => intro n; rfl
  | cons a l ih =>
    intro n
    simp only [withIdx, List.map_cons, ih (n + 1), hc (n, a)]

theorem fix_links_fst (pages : List Page) (bp : List (String × Nat)) :
    (fix_links pages bp).1 = ((withIdx pages 0).map
      (fun p => fixLinksPage bp ((fixLinksTocPages pages).contains p.1) p.2)).map
        Prod.fst := rfl

theorem fix_links_snd (pages : List Page) (bp : List (String × Nat)) :
    (fix_links pages bp).2 = (((withIdx pages 0).map
      (fun p => fixLinksPage bp ((fixLinksTocPages pages).contains p.1) p.2)).map
        (fun r => r.2)).foldl (fun a b => a + b) 0 := rfl

theorem fix_links_texts (pages : List Page) (bp : List (String × Nat)) :
    (fix_links pages bp).1.map Page.text = pages.map Page.text := by
  rw [fix_links_fst, List.map_map, List.map_map]
  exact withIdx_map_snd
    ((Page.text ∘ Prod.fst) ∘ fun p => fixLinksPage bp ((fixLinksTocPages pages).contains p.1) p.2)
    Page.text (fun p => rfl) pages 0

theorem mem_synthLinks_no_uri (bp : List (String × Nat)) (pg : Page) :
    ∀ l ∈ synthLinks bp pg, uriCoverKnown bp l = false := by
  intro l hl
  unfold synthLinks at hl
  rw [List.mem_filterMap] at hl
  obtain ⟨id, _, hf⟩ := hl
  split at hf
  · split at hf
    · cases hf
      rfl
    · cases hf
  · cases hf

theorem mem_replacedLinks_no_uri (bp : List (String × Nat)) (links : List PLink) :
    ∀ l ∈ replacedLinks bp links, uriCoverKnown bp l = false := by
  intro l hl
  unfold replacedLinks at hl
  rw [List.mem_filterMap] at hl
  obtain ⟨l', _, hf⟩ := hl
  split at hf
  · split at hf
    · cases hf
      rfl
    · cases hf
  · cases hf

theorem fixLinksPage_no_known_uri (bp : List (String × Nat)) (b : Bool) (pg : Page) :
    ∀ l ∈ ((fixLinksPage bp b pg).1).links, uriCoverKnown bp l = false := by
  intro l hl
  simp only [fixLinksPage] at hl
  rw [List.mem_append, List.mem_append] at hl
  rcases hl with (hl | hl) | hl
  · have := (List.mem_filter.mp hl).2
    simpa using this
  · cases b with
    | false => simp at hl
    | true => exact mem_synthLinks_no_uri bp pg l hl
  · exact mem_replacedLinks_no_uri bp pg.links l hl

theorem fix_links_output_no_uri (pages : List Page) (bp : List (String × Nat)) :
    ∀ pg ∈ (fix_links pages bp).1, ∀ l ∈ pg.links, uriCoverKnown bp l = false := by
  intro pg hpg
  rw [fix_links_fst, List.map_map, List.mem_map] at hpg
  obtain ⟨p, _, rfl⟩ := hpg
  exact fixLinksPage_no_known_uri bp _ p.2

theorem replacedLinks_eq_nil (bp : List (String × Nat)) (links : List PLink)
    (h : ∀ l ∈ links, uriCoverKnown bp l = false) :
    replacedLinks bp links = [] := by
  induction links with
  | nil => rfl
  | cons l links ih =>
    have hl := h l (List.mem_cons_self _ _)
    have hrest := ih (fun l' hl' => h l' (List.mem_cons_of_mem _ hl'))
    unfold replacedLinks at hrest ⊢
    rw [List.filterMap_cons]
    cases hid : uriCoverId l with
    | none =>
      simp only [hid]
      exact hrest
    | some id =>
      unfold uriCoverKnown at hl
      cases hdg : dictGet bp id with
      | none =>
        simp only [hid, hdg]
        exact hrest
      | some t =>
        have hl' : (dictGet bp id).isSome = false := by simpa [hid] using hl
        rw [hdg] at hl'
        simp at hl' 

theorem fix_links_count_of_no_uri (pages : List Page) (bp : List (String × Nat))
    (h : ∀ pg ∈ pages, ∀ l ∈ pg.links, uriCoverKnown bp l = false) :
    (fix_links pages bp).2 = synthLinkCount pages bp := by
  rw [fix_links_snd]
  unfold synthLinkCount
  rw [List.map_map]
  congr 1
  apply List.map_congr_left
  intro p hp
  have hmem := withIdx_mem_snd pages 0 p hp
  have hrepl : replacedLinks bp p.2.links = [] := replacedLinks_eq_nil _ _ (h p.2 hmem)
  cases hb : (fixLinksTocPages pages).contains p.1 with
  | false =>
    have hm : p.1 ∉ fixLinksTocPages pages := by simpa using hb
    simp [fixLinksPage, hrepl, hb, hm]
  | true =>
    have hm : p.1 ∈ fixLinksTocPages pages := by simpa using hb
    simp [fixLinksPage, hrepl, hb, hm]

/-- C2 (amended): running the Reference Patcher (`fix_links` followed by
the `create_bookmarks` outline rebuild) a second time produces an outline
identical to the first run's — but its link pass is not idempotent: the
second run reports a fixed-link count equal to the number of links it
re-synthesizes from TOC-page text (one per attachment entry with a known
position and locatable region), not zero. -/
theorem C2_patcher_second_run (doc : Doc) (bp : List (String × Nat))
    (toc_page_indices : List Nat) (amap : List (String × AttachmentDict)) :
    (patchDocument (patchDocument doc bp toc_page_indices amap).1 bp
        toc_page_indices amap).1.outline
      = (patchDocument doc bp toc_page_indices amap).1.outline ∧
    (patchDocument (patchDocument doc bp toc_page_indices amap).1 bp
        toc_page_indices amap).2
      = synthLinkCount (patchDocument doc bp toc_page_indices amap).1.pages bp := by
  constructor
  · show createBookmarksToc ((fix_links (fix_links doc.pages bp).1 bp).1.map Page.text)
        toc_page_indices amap
      = createBookmarksToc ((fix_links doc.pages bp).1.map Page.text) toc_page_indices amap
    rw [fix_links_texts]
  · exact fix_links_count_of_no_uri _ _ (fix_links_output_no_uri doc.pages bp)

/-- C2 counterexample: `c2Doc` is already correct for anchor map `c2Pos`
(its TOC link is a goto to the right page, its outline is the rebuilt
one), yet running the Patcher on it again fixes 1 link, not 0 — the link
pass re-synthesizes a TOC link unconditionally. -/
theorem C2_counterexample :
    specAlreadyCorrect c2Doc c2Pos [0] c2Amap = true ∧
    (patchDocument c2Doc c2Pos [0] c2Amap).2 = 1 ∧
    (patchDocument c2Doc c2Pos [0] c2Amap).2 ≠ 0 := by
  refine ⟨by decide, by decide, by decide⟩

/-- C8 (amended): a missing required spreadsheet field raises an error
that exits the run non-zero, as does a missing TOC PDF at assembly input;
an attachment file missing on disk is skipped with a warning and the run
exits 0 — but the final document still carries an outline entry for that
attachment (its orphaned cover page is found by the bookmark scan),
rather than the claimed "no outline entry". -/
theorem C8_error_taxonomy :
    (∀ fs : FileSys, fs.excelExists = true → fs.hasSheet = true →
      headerIndexFor fs.sheet.headers "Filename Reference" = none →
      merge_pdfs_main fs = 1) ∧
    (∀ (fs : FileSys) (atts : List AttachmentDict),
      read_attachment_data fs.excelExists fs.hasSheet fs.sheet false = .ok atts →
      fs.fileExists OUTPUT_PDF = false →
      merge_pdfs_main fs = 1) ∧
    (merge_pdfs_main c8Fs = 0 ∧
      (mergeRunWarnings c8Fs).contains
        "Warning: Attachment file not found: input-files/en/f7.pdf, skipping" = true ∧
      (mergeRunOutline c8Fs).any (fun e => e.2.1 = "Attachment 7: Seven") = true) := by
  refine ⟨?_, ?_, by decide, by decide, by decide⟩
  · intro fs he hs hfr
    unfold merge_pdfs_main read_attachment_data
    rw [he, hs]
    simp only [Bool.not_true, Bool.false_eq_true, if_false]
    cases han : headerIndexFor fs.sheet.headers "Attachment Number" with
    | none => simp
    | some i => simp [hfr]
  · intro fs atts hread hex
    unfold merge_pdfs_main
    rw [hread]
    unfold merge_pdfs
    rw [hex]
    simp

/-- Witness for C8 at concrete file systems: a sheet without the
`Filename Reference` column exits 1, and a missing TOC PDF exits 1. -/
theorem C8_error_taxonomy_witness :
    merge_pdfs_main c8FsNoField = 1 ∧ merge_pdfs_main c8FsNoToc = 1 :=
  ⟨C8_error_taxonomy.1 c8FsNoField rfl rfl (by decide),
   C8_error_taxonomy.2.1 c8FsNoToc c8Attachments (by decide) (by decide)⟩

/-- C8 counterexample: on the concrete run where attachment 7's file is
missing, the run exits 0 with the warning — but the final outline DOES
contain an entry for attachment 7 (targeting its orphaned cover page),
contradicting the claim's "no outline entry for that attachment". -/
theorem C8_counterexample :
    merge_pdfs_main c8Fs = 0 ∧
    (mergeRunWarnings c8Fs).contains
      "Warning: Attachment file not found: input-files/en/f7.pdf, skipping" = true ∧
    (mergeRunOutline c8Fs).any (fun e => e.2.1 = "Attachment 7: Seven") = true ∧
    mergeRunOutline c8Fs
      = [(1, "Title Page", 1), (1, "Table of Contents", 1),
         (1, "Attachment 1: One", 3), (1, "Attachment 7: Seven", 6)] := by
  refine ⟨by decide, by decide, by decide, by decide⟩
